import Mathlib

/-!
# NotepadZilla: note persistence and session consistency

A shallow embedding of the persistence core of `src/script.js` (class
`NotepadZilla`) and theorems about it.

Modelling conventions.

* A JavaScript string that the page reads or stores as text (title, markup,
  id) is a Lean `String`, a sequence of code points without lone surrogates.
  JavaScript counts and cuts strings by UTF-16 code unit, so `length` is
  `jsLength` and `substring` is `substring0`, both taken on the code units
  `toUTF16` of the string; a value that cutting may leave with half a
  surrogate pair (the preview) is kept as its code units.  Whitespace is all
  in the basic plane, so `trim` and `split` act on the code points.
* Timestamps (`Date.now()`, time values of `Date` objects) are integers
  (milliseconds).
* `localStorage` holds text.  A stored text either is the JSON serialisation of
  a value, or is not JSON at all; `JSON.parse (JSON.stringify v)` gives `v` back
  for records of strings and numbers, so a key is modelled by `Stored`: absent,
  the value it parses to, or malformed text (on which `JSON.parse` throws).
* The DOM is a host: the text projections of a detached element are the
  parameters `Dom.textContent` and `Dom.innerText`.  The title input and the
  editor surface are two strings of the session, holding what a read of
  `value` and of `innerHTML` gives; what they give after an assignment is
  decided by the host (`Dom.inputValue`, `Dom.innerHTML`): an input drops line
  breaks and the editor re-serialises the markup it parsed.
* Effects that only paint the page (status line, notifications, the rendered
  notes sidebar, focus) are left out.
-/

namespace NotepadZilla

/-! ## JavaScript strings -/

/-- The code points matched by `\s` in a regular expression and removed by
`String.prototype.trim` (ECMAScript WhiteSpace and LineTerminator). -/
def isJSWhitespace (c : Char) : Bool :=
  let n := c.toNat
  n == 0x09 || n == 0x0A || n == 0x0B || n == 0x0C || n == 0x0D || n == 0x20 ||
  n == 0xA0 || n == 0x1680 || (0x2000 ≤ n && n ≤ 0x200A) || n == 0x2028 ||
  n == 0x2029 || n == 0x202F || n == 0x205F || n == 0x3000 || n == 0xFEFF

/-- Character-list form of `trim`: whitespace is dropped at both ends. -/
def trimChars (cs : List Char) : List Char :=
  ((cs.dropWhile isJSWhitespace).reverse.dropWhile isJSWhitespace).reverse

/-- The method `s.trim()`. -/
def jsTrim (s : String) : String := ⟨trimChars s.data⟩

/-- The expression `a || b` on strings: the empty string is the only falsy one. -/
def strOr (a b : String) : String := if a = "" then b else a

/-- The UTF-16 code units of a code point: itself in the basic plane, a
surrogate pair above it. -/
def utf16Units (c : Char) : List Nat :=
  if c.toNat < 0x10000 then [c.toNat]
  else [0xD800 + (c.toNat - 0x10000) / 0x400, 0xDC00 + (c.toNat - 0x10000) % 0x400]

/-- The UTF-16 code units of a character list. -/
def utf16OfChars : List Char → List Nat
  | [] => []
  | c :: cs => utf16Units c ++ utf16OfChars cs

/-- The code units of a string, which is how JavaScript holds it. -/
def toUTF16 (s : String) : List Nat := utf16OfChars s.data

/-- The property `s.length`: the number of UTF-16 code units. -/
def jsLength (s : String) : Nat := (toUTF16 s).length

/-- The method `s.substring(0, n)`: the first `n` code units. -/
def substring0 (s : String) (n : Nat) : List Nat := (toUTF16 s).take n

/-- The pieces of `cs.split(/\s+/)`.  `cur` is the piece being read (reversed);
`inSep` tells that the last character read belongs to a separator match, which
extends greedily over the whole whitespace run. -/
def splitWsAux : List Char → List Char → Bool → List (List Char)
  | [], cur, _ => [cur.reverse]
  | c :: cs, cur, inSep =>
    if isJSWhitespace c then
      if inSep then splitWsAux cs cur true
      else cur.reverse :: splitWsAux cs [] true
    else splitWsAux cs (c :: cur) false

/-- The method `s.split(/\s+/)` on a non-empty string. -/
def splitWs (s : String) : List String :=
  (splitWsAux s.data [] false).map String.mk

/-- The number of maximal runs of non-whitespace characters of a character
list: a run starts at every non-whitespace character that is the first one or
follows a whitespace character.  `inWord` tells that the previous character is
not whitespace. -/
def countWordRunsAux : List Char → Bool → Nat
  | [], _ => 0
  | c :: cs, inWord =>
    if isJSWhitespace c then countWordRunsAux cs false
    else (if inWord then 0 else 1) + countWordRunsAux cs true

/-- The number of maximal runs of non-whitespace characters of a string, as the
specification words the word count. -/
def countWordRuns (s : String) : Nat := countWordRunsAux s.data false

/-! ## The DOM host -/

/-- The host.  `textContent` and `innerText` are the two text projections of a
detached `div` whose `innerHTML` was set to the given markup.  `inputValue t` is
what `documentTitle.value` reads after `documentTitle.value = t`, and
`innerHTML m` what `richTextEditor.innerHTML` reads after
`richTextEditor.innerHTML = m`.  The two laws are what every browser grants: a
text without line breaks is read back as assigned, and empty markup reads back
empty. -/
structure Dom where
  textContent : String → String
  innerText : String → String
  inputValue : String → String
  innerHTML : String → String
  inputValue_of_no_line_break :
    ∀ t : String, (∀ c ∈ t.data, c ≠ '\n' ∧ c ≠ '\r') → inputValue t = t
  innerHTML_empty : innerHTML "" = ""

/-- The expression `temp.textContent || temp.innerText || ''` after
`temp.innerHTML = content`: the plain-text projection of `content`. -/
def plainText (dom : Dom) (content : String) : String :=
  strOr (dom.textContent content) (strOr (dom.innerText content) "")

/-- The default value of the parameter `maxLength` of `getTextPreview`. -/
def defaultMaxLength : Nat := 100

/-- Source `getTextPreview(content, maxLength = 100)`, lines 836-841; a call
that omits `maxLength` passes `defaultMaxLength`. -/
def getTextPreview (dom : Dom) (content : String) (maxLength : Nat) : List Nat :=
  let text := plainText dom content
  substring0 text maxLength ++ (if jsLength text > maxLength then toUTF16 "..." else toUTF16 "")

/-- Source `getWordCount(content)`, lines 843-848. -/
def getWordCount (dom : Dom) (content : String) : Nat :=
  let text := plainText dom content
  if jsTrim text = "" then 0 else (splitWs (jsTrim text)).length

/-- Source `stripHtml(html)`, lines 850-854. -/
def stripHtml (dom : Dom) (html : String) : String :=
  plainText dom html

/-- Source `formatDate(date)`, lines 862-877.  `now` is the time value of
`new Date()`, `date` the time value of the argument, and `toLocaleDateString`
the host's calendar rendering of a time value. -/
def formatDate (toLocaleDateString : Int → String) (now date : Int) : String :=
  let diff := now - date
  if diff < 60000 then "Just now"
  else if diff < 3600000 then toString (diff / 60000) ++ " minutes ago"
  else if diff < 86400000 then toString (diff / 3600000) ++ " hours ago"
  else toLocaleDateString date

/-! ## Notes and storage -/

/-- A note record.  `preview` and `createdAt` are optional: the default note
built by `loadCurrentNote` and `createNewNote` has no `preview`, and
`saveCurrentNote` tests `createdAt` for presence.  The preview is held as its
UTF-16 code units. -/
structure Note where
  id : String
  title : String
  content : String
  preview : Option (List Nat)
  createdAt : Option Int
  updatedAt : Int
  wordCount : Nat
  charCount : Nat
  deriving DecidableEq, Repr

/-- What a `localStorage` key holds, as seen through `JSON.parse`. -/
inductive Stored (α : Type) where
  /-- `getItem` gives `null`, which `JSON.parse` maps to `null`. -/
  | absent : Stored α
  /-- The text is the serialisation of `a`. -/
  | value (a : α) : Stored α
  /-- The text is not JSON: `JSON.parse` throws. -/
  | malformed : Stored α
  deriving DecidableEq, Repr

/-- The two keys of the core: `current_note` (field `current`) and
`notepadzilla_notes` (field `notes`).  `writable = false` stands for a store on
which `setItem` throws (quota exhausted, storage disabled). -/
structure Storage where
  current : Stored Note
  notes : Stored (List Note)
  writable : Bool
  deriving DecidableEq, Repr

/-- The statement `localStorage.setItem(this.currentNoteId, JSON.stringify(note))`;
`none` when it throws. -/
def setCurrentItem (st : Storage) (note : Note) : Option Storage :=
  if st.writable then some { st with current := Stored.value note } else none

/-- The statement `localStorage.setItem(this.notesKey, JSON.stringify(notes))`;
`none` when it throws. -/
def setNotesItem (st : Storage) (notes : List Note) : Option Storage :=
  if st.writable then some { st with notes := Stored.value notes } else none

/-- The expression `JSON.parse(localStorage.getItem(this.notesKey)) || []`;
`none` when `JSON.parse` throws. -/
def parseNotes (st : Storage) : Option (List Note) :=
  match st.notes with
  | Stored.absent => some []
  | Stored.value ns => some ns
  | Stored.malformed => none

/-- Source `saveToNotesList(note)`, lines 444-459; `none` when an exception
escapes, in which case nothing was written. -/
def saveToNotesList (st : Storage) (note : Note) : Option Storage :=
  match parseNotes st with
  | none => none
  | some notes0 =>
    -- Remove existing note with same id
    let notes1 := notes0.filter (fun n => n.id != note.id)
    -- Add to beginning
    let notes2 := note :: notes1
    -- Keep only last 100 notes
    let notes3 := if notes2.length > 100 then notes2.take 100 else notes2
    setNotesItem st notes3

/-- The calls `saveToNotesList(n)` for the notes `n` of a sequence, in order;
`none` as soon as one of them throws. -/
def saveAllToNotesList : Storage → List Note → Option Storage
  | st, [] => some st
  | st, n :: ns =>
    match saveToNotesList st n with
    | none => none
    | some st1 => saveAllToNotesList st1 ns

/-! ## The session -/

/-- The mutable state the core reads and writes: the fields `currentNote` and
`isSaving` of the object, the value of the `documentTitle` input, the
`innerHTML` of `richTextEditor`, and `localStorage`. -/
structure Session where
  currentNote : Option Note
  isSaving : Bool
  documentTitle : String
  editorHTML : String
  storage : Storage
  deriving DecidableEq, Repr

/-- How a method call ends: it returns, or an exception escapes it; either way
the session is left in the state carried. -/
inductive Outcome where
  | returned (s : Session) : Outcome
  | threw (s : Session) : Outcome
  deriving DecidableEq, Repr

/-- The session a call leaves behind. -/
def Outcome.session : Outcome → Session
  | Outcome.returned s => s
  | Outcome.threw s => s

/-- The note object built at lines 411-420 of `saveCurrentNote`.  `now` is the
value of `const now = Date.now()` and `idNow` the later reading of `Date.now()`
inside the `id` expression. -/
def buildNote (dom : Dom) (now idNow : Int) (s : Session) : Note :=
  let title := strOr (jsTrim s.documentTitle) "Untitled Document"
  let content := s.editorHTML
  { id :=
      match s.currentNote with
      | some cur => if cur.id = "" then toString idNow else cur.id
      | none => toString idNow
    title := title
    content := content
    preview := some (getTextPreview dom content defaultMaxLength)
    createdAt :=
      match s.currentNote with
      | some cur =>
        match cur.createdAt with
        | some c => if c = 0 then some now else some c
        | none => some now
      | none => some now
    updatedAt := now
    wordCount := getWordCount dom content
    charCount := jsLength content }

/-- Source `saveCurrentNote()`, lines 403-442. -/
def saveCurrentNote (dom : Dom) (now idNow : Int) (s : Session) : Outcome :=
  if s.isSaving then Outcome.returned s
  else
    let s1 := { s with isSaving := true }
    let note := buildNote dom now idNow s
    -- Save current note
    match setCurrentItem s1.storage note with
    | none => Outcome.threw s1
    | some st1 =>
      -- Save to notes list
      match saveToNotesList st1 note with
      | none => Outcome.threw { s1 with storage := st1 }
      | some st2 =>
        -- Update current note reference; `loadNotesList` re-reads the list
        -- just written and only paints it
        Outcome.returned { s1 with storage := st2, currentNote := some note, isSaving := false }

/-- Source `loadCurrentNote()`, lines 380-401.  The three readings of
`Date.now()` in the default record are `idNow`, `createdNow` and `updatedNow`. -/
def loadCurrentNote (dom : Dom) (idNow createdNow updatedNow : Int) (s : Session) : Outcome :=
  match s.storage.current with
  | Stored.malformed => Outcome.threw s
  | Stored.value note =>
    Outcome.returned
      { s with
        documentTitle := dom.inputValue note.title
        editorHTML := dom.innerHTML (strOr note.content "")
        currentNote := some note }
  | Stored.absent =>
    let note : Note :=
      { id := toString idNow
        title := "Untitled Document"
        content := ""
        preview := none
        createdAt := some createdNow
        updatedAt := updatedNow
        wordCount := 0
        charCount := 0 }
    Outcome.returned
      { s with
        documentTitle := dom.inputValue note.title
        editorHTML := dom.innerHTML (strOr note.content "")
        currentNote := some note }

/-- Source `hasUnsavedChanges()`, lines 761-769. -/
def hasUnsavedChanges (s : Session) : Bool :=
  match s.currentNote with
  | none => true
  | some cur =>
    let currentTitle := strOr (jsTrim s.documentTitle) "Untitled Document"
    let currentContent := s.editorHTML
    cur.title != currentTitle || cur.content != currentContent

/-- The timer callback installed by `startAutoSave()`, lines 753-759. -/
def autoSaveTick (dom : Dom) (now idNow : Int) (s : Session) : Outcome :=
  if hasUnsavedChanges s then saveCurrentNote dom now idNow s else Outcome.returned s

/-- The note held by the current-note slot, when it holds one. -/
def slotNote (s : Session) : Option Note :=
  match s.storage.current with
  | Stored.value n => some n
  | _ => none

/-- The expression `notes.find(n => n.id === noteId)`, line 491. -/
def findNote (notes : List Note) (noteId : String) : Option Note :=
  notes.find? (fun n => n.id == noteId)

/-- Source `loadNoteById(noteId)`, lines 489-523.  `now` and `idNow` are the
clock readings of the save it performs. -/
def loadNoteById (dom : Dom) (now idNow : Int) (noteId : String) (s : Session) : Outcome :=
  match parseNotes s.storage with
  | none => Outcome.threw s
  | some notes =>
    match findNote notes noteId with
    | none => Outcome.returned s
    | some note =>
      -- Save current note first
      match saveCurrentNote dom now idNow s with
      | Outcome.threw s1 => Outcome.threw s1
      | Outcome.returned s1 =>
        -- Load selected note; update current note reference
        Outcome.returned
          { s1 with
            documentTitle := dom.inputValue note.title
            editorHTML := dom.innerHTML note.content
            currentNote := some note }

/-- The record `newNote` built at lines 530-538 of `createNewNote`, from its
three readings of `Date.now()`. -/
def newNote (newIdNow createdNow updatedNow : Int) : Note :=
  { id := toString newIdNow
    title := "Untitled Document"
    content := ""
    preview := none
    createdAt := some createdNow
    updatedAt := updatedNow
    wordCount := 0
    charCount := 0 }

/-- Source `createNewNote()`, lines 525-565.  `now` and `idNow` are the clock
readings of the save it performs, the other three those of the new record. -/
def createNewNote (dom : Dom) (now idNow newIdNow createdNow updatedNow : Int)
    (s : Session) : Outcome :=
  -- Save current note before creating new one
  match saveCurrentNote dom now idNow s with
  | Outcome.threw s1 => Outcome.threw s1
  | Outcome.returned s1 =>
    let note := newNote newIdNow createdNow updatedNow
    -- Update UI; update current note reference
    Outcome.returned
      { s1 with
        documentTitle := dom.inputValue note.title
        editorHTML := dom.innerHTML ""
        currentNote := some note }

/-- The part of the constructor and of `init()` (lines 2-33) that concerns the
core: a new object with no live note and no save in flight, `loadCurrentNote()`,
then `loadNotesList()`, which parses the list and paints it. -/
def init (dom : Dom) (idNow createdNow updatedNow : Int) (st : Storage) : Outcome :=
  match loadCurrentNote dom idNow createdNow updatedNow
      { currentNote := none, isSaving := false, documentTitle := "", editorHTML := "",
        storage := st } with
  | Outcome.threw s => Outcome.threw s
  | Outcome.returned s =>
    match parseNotes s.storage with
    | none => Outcome.threw s
    | some _ => Outcome.returned s

/-! ## Export -/

/-- The arguments of a call `downloadFile(content, filename, type)`. -/
structure Download where
  content : String
  filename : String
  type : String
  deriving DecidableEq, Repr

/-- The text of the `exportAsHTML` template (lines 597-639) up to the title
interpolated in the `title` element. -/
def htmlBeforeTitle : String :=
  "\n" ++
  "            <!DOCTYPE html>\n" ++
  "            <html>\n" ++
  "            <head>\n" ++
  "                <meta charset=\"UTF-8\">\n" ++
  "                <title>"

/-- The text of the `exportAsHTML` template between the title interpolated in
the `title` element and the title interpolated in the heading. -/
def htmlBeforeHeading : String :=
  "</title>\n" ++
  "                <style>\n" ++
  "                    body \x7b \n" ++
  "                        font-family: Arial, sans-serif; \n" ++
  "                        line-height: 1.6; \n" ++
  "                        padding: 40px; \n" ++
  "                        max-width: 800px; \n" ++
  "                        margin: 0 auto;\n" ++
  "                        color: #333;\n" ++
  "                    \x7d\n" ++
  "                    h1 \x7b \n" ++
  "                        color: #2563eb; \n" ++
  "                        border-bottom: 2px solid #e5e7eb;\n" ++
  "                        padding-bottom: 10px;\n" ++
  "                        margin-bottom: 20px;\n" ++
  "                    \x7d\n" ++
  "                    .content \x7b \n" ++
  "                        margin-top: 20px;\n" ++
  "                    \x7d\n" ++
  "                    .footer \x7b\n" ++
  "                        margin-top: 40px;\n" ++
  "                        padding-top: 20px;\n" ++
  "                        border-top: 1px solid #e5e7eb;\n" ++
  "                        color: #6b7280;\n" ++
  "                        font-size: 0.9rem;\n" ++
  "                        text-align: center;\n" ++
  "                    \x7d\n" ++
  "                </style>\n" ++
  "            </head>\n" ++
  "            <body>\n" ++
  "                <h1>"

/-- The text of the `exportAsHTML` template between the heading title and the
interpolated content. -/
def htmlBeforeContent : String :=
  "</h1>\n" ++
  "                <div class=\"content\">"

/-- The text of the `exportAsHTML` template between the interpolated content
and the export date. -/
def htmlBeforeDate : String :=
  "</div>\n" ++
  "                <div class=\"footer\">\n" ++
  "                    Exported from NotepadZilla on "

/-- The text of the `exportAsHTML` template after the export date. -/
def htmlAfterDate : String :=
  "\n" ++
  "                </div>\n" ++
  "            </body>\n" ++
  "            </html>\n" ++
  "        "

/-- Source `exportAsHTML(title, content)`, lines 596-643.  `now` is the time
value of `new Date()`.  The session is threaded through to record what the
method does to it. -/
def exportAsHTML (toLocaleDateString : Int → String) (now : Int) (title content : String)
    (s : Session) : Download × Session :=
  let htmlContent := htmlBeforeTitle ++ title ++ htmlBeforeHeading ++ title ++
    htmlBeforeContent ++ content ++ htmlBeforeDate ++ toLocaleDateString now ++ htmlAfterDate
  ({ content := htmlContent, filename := title ++ ".html", type := "text/html" }, s)

/-- Source `exportAsTXT(title, content)`, lines 645-649. -/
def exportAsTXT (toLocaleDateString : Int → String) (now : Int) (title content : String)
    (s : Session) : Download × Session :=
  let txtContent := title ++ "\n\n" ++ content ++ "\n\n---\nExported from NotepadZilla on " ++
    toLocaleDateString now
  ({ content := txtContent, filename := title ++ ".txt", type := "text/plain" }, s)

/-- Source `exportAsDOCX(title, content)`, lines 651-656. -/
def exportAsDOCX (dom : Dom) (title content : String) (s : Session) : Download × Session :=
  let docxContent := "Title: " ++ title ++ "\n\n" ++ stripHtml dom content ++
    "\n\nExported from NotepadZilla"
  ({ content := docxContent, filename := title ++ ".docx",
     type := "application/vnd.openxmlformats-officedocument.wordprocessingml.document" }, s)

/-! ## Concrete hosts and records for evaluation -/

/-- Deletes every tag `<...>` from a character list; `inTag` tells that an
opening `<` has been read and not yet closed. -/
def stripTagsAux : List Char → Bool → List Char
  | [], _ => []
  | c :: cs, inTag =>
    if inTag then stripTagsAux cs (c != '>')
    else if c = '<' then stripTagsAux cs true
    else c :: stripTagsAux cs false

/-- A host whose text projections delete the tags of the markup and keep the
text between them, whose input drops line breaks and whose editor reads back
the markup as assigned; it stands for the DOM when the definitions are
evaluated on a concrete input. -/
def tagStripDom : Dom where
  textContent := fun html => ⟨stripTagsAux html.data false⟩
  innerText := fun html => ⟨stripTagsAux html.data false⟩
  inputValue := fun t => ⟨t.data.filter (fun c => c != '\n' && c != '\r')⟩
  innerHTML := fun m => m
  inputValue_of_no_line_break := by
    intro t h
    apply String.ext
    show t.data.filter (fun c => c != '\n' && c != '\r') = t.data
    rw [List.filter_eq_self]
    intro c hc
    have := h c hc
    simp [this.1, this.2]
  innerHTML_empty := rfl

/-- A record with the given id and title and empty content. -/
def mkNote (id title : String) : Note :=
  { id := id, title := title, content := "", preview := some [], createdAt := some 1,
    updatedAt := 1, wordCount := 0, charCount := 0 }

/-- The 150 records with ids `0`, ..., `149`, in that order. -/
def sampleNotes : List Note :=
  (List.range 150).map (fun i => mkNote (toString i) "t")

/-- A store with nothing under either key. -/
def emptyStorage : Storage :=
  { current := Stored.absent, notes := Stored.absent, writable := true }

/-- A session on the empty store with the given live note, title input and
editor markup, and no save in flight. -/
def mkSession (live : Option Note) (title html : String) : Session :=
  { currentNote := live, isSaving := false, documentTitle := title, editorHTML := html,
    storage := emptyStorage }

/-- A live note whose `id` is the empty string and whose `createdAt` is 0, both
falsy in JavaScript. -/
def falsyNote : Note :=
  { id := "", title := "A", content := "", preview := none, createdAt := some 0,
    updatedAt := 0, wordCount := 0, charCount := 0 }

/-- A calendar rendering for evaluation: the number of whole days since the
epoch. -/
def dayNumber (t : Int) : String := toString (t / 86400000)

/-- A store holding the given current note and list. -/
def mkStorage (cur : Stored Note) (notes : List Note) : Storage :=
  { current := cur, notes := Stored.value notes, writable := true }

/-- A session on the given store with the given live note, title input and
editor markup, and no save in flight. -/
def mkSessionOn (st : Storage) (live : Option Note) (title html : String) : Session :=
  { currentNote := live, isSaving := false, documentTitle := title, editorHTML := html,
    storage := st }

/-! ## The notes list -/

theorem take_cap_eq {α : Type} (l : List α) (k : Nat) :
    (if l.length > k then l.take k else l) = l.take k := by
  split
  · rfl
  · rw [List.take_of_length_le (by omega)]

theorem take_append_take {α : Type} (a b : List α) (k : Nat) :
    (a ++ b.take k).take k = (a ++ b).take k := by
  rw [List.take_append_eq_append_take, List.take_append_eq_append_take, List.take_take]
  congr 2
  omega

theorem filter_id_ne_of_not_mem (note : Note) (l : List Note)
    (h : note.id ∉ l.map Note.id) : l.filter (fun n => n.id != note.id) = l := by
  rw [List.filter_eq_self]
  intro n hn
  have : n.id ≠ note.id := fun e => h (e ▸ List.mem_map_of_mem Note.id hn)
  simpa using this

theorem saveToNotesList_eq (st : Storage) (notes : List Note) (note : Note)
    (hp : parseNotes st = some notes) (hw : st.writable = true) :
    saveToNotesList st note = some { st with
      notes := Stored.value ((note :: notes.filter (fun n => n.id != note.id)).take 100) } := by
  simp only [saveToNotesList, hp, setNotesItem, hw, take_cap_eq, if_true]

theorem saveAllToNotesList_eq (ns : List Note) :
    ∀ (st : Storage) (l : List Note), parseNotes st = some l → st.writable = true →
      l.length ≤ 100 → ((ns.map Note.id) ++ (l.map Note.id)).Nodup →
      ∃ st1, saveAllToNotesList st ns = some st1 ∧ st1.writable = true ∧
        st1.current = st.current ∧ parseNotes st1 = some ((ns.reverse ++ l).take 100) := by
  induction ns with
  | nil =>
    intro st l hp hw hl _
    exact ⟨st, rfl, hw, rfl, by simpa [List.take_of_length_le hl] using hp⟩
  | cons n ns ih =>
    intro st l hp hw hl hd
    have hd1 : (n.id :: (ns.map Note.id ++ l.map Note.id)).Nodup := by simpa using hd
    have hn : n.id ∉ l.map Note.id := fun h =>
      (List.nodup_cons.mp hd1).1 (List.mem_append_right _ h)
    have hstep := saveToNotesList_eq st l n hp hw
    rw [filter_id_ne_of_not_mem n l hn] at hstep
    have hsub : List.Sublist (((n :: l).take 100).map Note.id) (n.id :: l.map Note.id) := by
      simpa using ((List.take_sublist 100 (n :: l)).map Note.id)
    have hd2 : (ns.map Note.id ++ ((n :: l).take 100).map Note.id).Nodup := by
      have hperm : (ns.map Note.id ++ (n.id :: l.map Note.id)).Nodup := by
        refine (List.Perm.nodup_iff ?_).mp hd1
        exact (List.perm_middle).symm
      exact List.Nodup.sublist (List.Sublist.append (List.Sublist.refl _) hsub) hperm
    obtain ⟨st1, h1, h2, h3, h4⟩ :=
      ih { st with notes := Stored.value ((n :: l).take 100) } ((n :: l).take 100) rfl hw
        (by simp [List.length_take]) hd2
    refine ⟨st1, ?_, h2, h3, ?_⟩
    · simp only [saveAllToNotesList, hstep]
      exact h1
    · rw [h4, take_append_take]
      simp

/-- C1: upserting a sequence of notes with pairwise distinct ids, in order,
into an initially empty list succeeds and leaves exactly the last
`min n 100` of them, most recently upserted first; the length is `min n 100`,
and it is 100 after 150 upserts. -/
theorem saveAllToNotesList_cap (st : Storage) (ns : List Note)
    (hempty : parseNotes st = some []) (hw : st.writable = true)
    (hd : (ns.map Note.id).Nodup) :
    ∃ st1, saveAllToNotesList st ns = some st1 ∧
      parseNotes st1 = some (ns.reverse.take 100) ∧
      (ns.reverse.take 100).length = min ns.length 100 ∧
      (ns.reverse.take 100).map Note.id = ((ns.map Note.id).reverse).take 100 ∧
      (ns.length = 150 → (ns.reverse.take 100).length = 100 ∧
        ns.reverse.take 100 = (ns.drop 50).reverse) := by
  obtain ⟨st1, h1, -, -, h4⟩ :=
    saveAllToNotesList_eq ns st [] hempty hw (by simp) (by simpa using hd)
  refine ⟨st1, h1, by simpa using h4, by simp [Nat.min_comm], ?_, ?_⟩
  · rw [List.map_take, List.map_reverse]
  · intro h150
    refine ⟨by simp [h150], ?_⟩
    rw [List.take_reverse, h150]

set_option maxRecDepth 100000 in
/-- Witness of C1: the 150 notes with ids 0 to 149 upserted into the empty
store leave the 100 notes with ids 149 down to 50. -/
theorem saveAllToNotesList_cap_witness :
    ∃ st1, saveAllToNotesList emptyStorage sampleNotes = some st1 ∧
      parseNotes st1 = some (sampleNotes.reverse.take 100) ∧
      (sampleNotes.reverse.take 100).length = 100 ∧
      sampleNotes.reverse.take 100 = (sampleNotes.drop 50).reverse := by
  obtain ⟨st1, h1, h2, -, -, h5⟩ :=
    saveAllToNotesList_cap emptyStorage sampleNotes rfl rfl (by decide)
  exact ⟨st1, h1, h2, h5 (by decide)⟩

/-- C2: an upsert into a list with pairwise distinct ids succeeds on a writable
store and leaves a list with pairwise distinct ids whose head is the given
note, in which no other entry carries that id, and whose other entries are the
previous entries with a different id, in their previous order (cut at the
cap). -/
theorem saveToNotesList_upsert (st : Storage) (notes : List Note) (note : Note)
    (hp : parseNotes st = some notes) (hw : st.writable = true)
    (hd : (notes.map Note.id).Nodup) :
    ∃ st1 rest, saveToNotesList st note = some st1 ∧
      parseNotes st1 = some (note :: rest) ∧
      ((note :: rest).map Note.id).Nodup ∧
      (∀ n ∈ rest, n.id ≠ note.id) ∧
      List.Sublist rest notes ∧
      rest = (notes.filter (fun n => n.id != note.id)).take 99 := by
  have hsub : List.Sublist ((notes.filter (fun n => n.id != note.id)).take 99) notes :=
    (List.take_sublist _ _).trans (List.filter_sublist _)
  have hne : ∀ n ∈ (notes.filter (fun n => n.id != note.id)).take 99, n.id ≠ note.id := by
    intro n hn
    have := (List.mem_filter.mp (List.mem_of_mem_take hn)).2
    simpa using this
  refine ⟨_, _, saveToNotesList_eq st notes note hp hw, ?_, ?_, hne, hsub, rfl⟩
  · simp [parseNotes]
  · rw [List.map_cons, List.nodup_cons]
    refine ⟨?_, List.Nodup.sublist (hsub.map Note.id) hd⟩
    intro hmem
    obtain ⟨n, hn, hid⟩ := List.mem_map.mp hmem
    exact hne n hn hid

/-- Witness of C2: re-saving the note with id 1 into a two-entry list. -/
theorem saveToNotesList_upsert_witness :
    ∃ st1 rest, saveToNotesList
        { emptyStorage with notes := Stored.value [mkNote "2" "b", mkNote "1" "a"] }
        (mkNote "1" "c") = some st1 ∧
      parseNotes st1 = some (mkNote "1" "c" :: rest) ∧
      ((mkNote "1" "c" :: rest).map Note.id).Nodup ∧
      (∀ n ∈ rest, n.id ≠ (mkNote "1" "c").id) ∧
      List.Sublist rest [mkNote "2" "b", mkNote "1" "a"] ∧
      rest = ([mkNote "2" "b", mkNote "1" "a"].filter
        (fun n => n.id != (mkNote "1" "c").id)).take 99 :=
  saveToNotesList_upsert
    { emptyStorage with notes := Stored.value [mkNote "2" "b", mkNote "1" "a"] }
    [mkNote "2" "b", mkNote "1" "a"] (mkNote "1" "c") rfl rfl (by decide)

/-! ## Saving the live note -/

theorem saveCurrentNote_ok (dom : Dom) (now idNow : Int) (s : Session) (l : List Note)
    (hsav : s.isSaving = false) (hw : s.storage.writable = true)
    (hq : parseNotes s.storage = some l) :
    saveCurrentNote dom now idNow s = Outcome.returned
      { s with
        isSaving := false
        currentNote := some (buildNote dom now idNow s)
        storage :=
          { current := Stored.value (buildNote dom now idNow s)
            notes := Stored.value ((buildNote dom now idNow s ::
              l.filter (fun n => n.id != (buildNote dom now idNow s).id)).take 100)
            writable := true } } := by
  obtain ⟨cur, sav, t, h, ⟨c, n, w⟩⟩ := s
  simp only at hsav hw
  subst hsav hw
  have hq1 : parseNotes (Storage.mk
      (Stored.value (buildNote dom now idNow ⟨cur, false, t, h, ⟨c, n, true⟩⟩)) n true)
      = some l := hq
  simp only [saveCurrentNote, setCurrentItem, Bool.false_eq_true, if_false, if_true,
    saveToNotesList_eq _ l _ hq1 rfl]

theorem saveCurrentNote_parse_throws (dom : Dom) (now idNow : Int) (s : Session)
    (hsav : s.isSaving = false) (hw : s.storage.writable = true)
    (hq : parseNotes s.storage = none) :
    saveCurrentNote dom now idNow s = Outcome.threw
      { s with
        isSaving := true
        storage := { s.storage with current := Stored.value (buildNote dom now idNow s) } } := by
  obtain ⟨cur, sav, t, h, ⟨c, n, w⟩⟩ := s
  simp only at hsav hw
  subst hsav hw
  have hq1 : parseNotes (Storage.mk
      (Stored.value (buildNote dom now idNow ⟨cur, false, t, h, ⟨c, n, true⟩⟩)) n true)
      = none := hq
  simp only [saveCurrentNote, setCurrentItem, Bool.false_eq_true, if_false, if_true,
    saveToNotesList, hq1]

theorem saveCurrentNote_write_throws (dom : Dom) (now idNow : Int) (s : Session)
    (hsav : s.isSaving = false) (hw : s.storage.writable = false) :
    saveCurrentNote dom now idNow s = Outcome.threw { s with isSaving := true } := by
  simp [saveCurrentNote, setCurrentItem, hsav, hw]

theorem saveCurrentNote_slot (dom : Dom) (now idNow : Int) (s : Session)
    (hsav : s.isSaving = false) (hw : s.storage.writable = true) :
    (saveCurrentNote dom now idNow s).session.storage.current
      = Stored.value (buildNote dom now idNow s) := by
  cases hq : parseNotes s.storage with
  | none => rw [saveCurrentNote_parse_throws dom now idNow s hsav hw hq]; rfl
  | some l => rw [saveCurrentNote_ok dom now idNow s l hsav hw hq]; rfl

theorem saveCurrentNote_returned (dom : Dom) (now idNow : Int) (s s1 : Session)
    (hsav : s.isSaving = false)
    (h : saveCurrentNote dom now idNow s = Outcome.returned s1) :
    ∃ l, parseNotes s.storage = some l ∧ s.storage.writable = true ∧
      s1 = { s with
        isSaving := false
        currentNote := some (buildNote dom now idNow s)
        storage :=
          { current := Stored.value (buildNote dom now idNow s)
            notes := Stored.value ((buildNote dom now idNow s ::
              l.filter (fun n => n.id != (buildNote dom now idNow s).id)).take 100)
            writable := true } } := by
  cases hw : s.storage.writable with
  | false =>
    rw [saveCurrentNote_write_throws dom now idNow s hsav hw] at h
    exact absurd h (by simp)
  | true =>
    cases hq : parseNotes s.storage with
    | none =>
      rw [saveCurrentNote_parse_throws dom now idNow s hsav hw hq] at h
      exact absurd h (by simp)
    | some l =>
      rw [saveCurrentNote_ok dom now idNow s l hsav hw hq] at h
      exact ⟨l, rfl, rfl, (Outcome.returned.inj h).symm⟩

theorem saveCurrentNote_succeeds (dom : Dom) (now idNow : Int) (s : Session)
    (hsav : s.isSaving = false) (hw : s.storage.writable = true)
    (hp : s.storage.notes ≠ Stored.malformed) :
    ∃ s1, saveCurrentNote dom now idNow s = Outcome.returned s1 := by
  have hq : ∃ l, parseNotes s.storage = some l := by
    cases hn : s.storage.notes with
    | absent => exact ⟨[], by simp [parseNotes, hn]⟩
    | value l => exact ⟨l, by simp [parseNotes, hn]⟩
    | malformed => exact absurd hn hp
  obtain ⟨l, hl⟩ := hq
  exact ⟨_, saveCurrentNote_ok dom now idNow s l hsav hw hl⟩

/-- Counterexample to C3 as stated: with a live note whose id is the empty
string and whose createdAt is 0, the note written at clock value 5 has a fresh
id and createdAt 5. -/
theorem saveCurrentNote_falsy_fields_counterexample :
    slotNote (saveCurrentNote tagStripDom 5 7 (mkSession (some falsyNote) "A" "")).session
        = some { id := "7", title := "A", content := "", preview := some [],
                 createdAt := some 5, updatedAt := 5, wordCount := 0, charCount := 0 } ∧
      ("7" : String) ≠ falsyNote.id ∧ (some 5 : Option Int) ≠ falsyNote.createdAt := by
  decide

/-- C3, amended: a save that is not blocked by a save in flight writes, on a
writable store, a note whose updatedAt is the clock value; the id is the live
note's id when that id is not the empty string (otherwise it is derived from
the clock); the createdAt is the live note's when it is present and not 0, and
is the clock value when it is absent or 0. -/
theorem saveCurrentNote_preserves_identity (dom : Dom) (now idNow : Int) (s : Session)
    (live : Note) (hcur : s.currentNote = some live)
    (hsav : s.isSaving = false) (hw : s.storage.writable = true) :
    ∃ n, slotNote (saveCurrentNote dom now idNow s).session = some n ∧
      n.updatedAt = now ∧
      (live.id ≠ "" → n.id = live.id) ∧
      (live.id = "" → n.id = toString idNow) ∧
      (∀ c, live.createdAt = some c → c ≠ 0 → n.createdAt = some c) ∧
      (live.createdAt = none ∨ live.createdAt = some 0 → n.createdAt = some now) := by
  refine ⟨buildNote dom now idNow s, ?_, rfl, ?_, ?_, ?_, ?_⟩
  · simp [slotNote, saveCurrentNote_slot dom now idNow s hsav hw]
  · intro hid
    simp [buildNote, hcur, hid]
  · intro hid
    simp [buildNote, hcur, hid]
  · intro c hc hc0
    simp [buildNote, hcur, hc, hc0]
  · rintro (hc | hc) <;> simp [buildNote, hcur, hc]

/-- Witness of C3, amended: a live note with id 41 created at 1, saved at 5. -/
theorem saveCurrentNote_preserves_identity_witness :
    ∃ n, slotNote (saveCurrentNote tagStripDom 5 7
        (mkSession (some (mkNote "41" "A")) "A" "")).session = some n ∧
      n.updatedAt = 5 ∧
      ((mkNote "41" "A").id ≠ "" → n.id = (mkNote "41" "A").id) ∧
      ((mkNote "41" "A").id = "" → n.id = toString (7 : Int)) ∧
      (∀ c, (mkNote "41" "A").createdAt = some c → c ≠ 0 → n.createdAt = some c) ∧
      ((mkNote "41" "A").createdAt = none ∨ (mkNote "41" "A").createdAt = some 0 →
        n.createdAt = some 5) :=
  saveCurrentNote_preserves_identity tagStripDom 5 7
    (mkSession (some (mkNote "41" "A")) "A" "") (mkNote "41" "A") rfl rfl rfl

/-- C4: after a save that ran to completion, the current-note slot holds the
note built from the editor's title and content, loading the slot gives that
note back as the live note, the head of the persisted list is that same note,
and so the id at the head of the list is the live note's id. -/
theorem saveCurrentNote_slot_and_head (dom : Dom) (now idNow : Int) (s s1 : Session)
    (hsav : s.isSaving = false)
    (h : saveCurrentNote dom now idNow s = Outcome.returned s1) :
    ∃ n rest, n = buildNote dom now idNow s ∧
      n.title = strOr (jsTrim s.documentTitle) "Untitled Document" ∧
      n.content = s.editorHTML ∧
      s1.storage.current = Stored.value n ∧
      (∀ (d : Dom) (t1 t2 t3 : Int), ∃ s2,
        loadCurrentNote d t1 t2 t3 s1 = Outcome.returned s2 ∧ s2.currentNote = some n) ∧
      parseNotes s1.storage = some (n :: rest) ∧
      s1.currentNote = some n ∧
      (s1.currentNote.map Note.id = (n :: rest).head?.map Note.id) ∧
      (∀ live, s.currentNote = some live → live.id ≠ "" →
        (n :: rest).head?.map Note.id = some live.id) := by
  obtain ⟨l, -, -, rfl⟩ := saveCurrentNote_returned dom now idNow s s1 hsav h
  refine ⟨_, (l.filter (fun n => n.id != (buildNote dom now idNow s).id)).take 99,
    rfl, rfl, rfl, rfl, ?_, ?_, rfl, rfl, ?_⟩
  · intro d t1 t2 t3
    exact ⟨_, rfl, rfl⟩
  · simp only [parseNotes, List.take_succ_cons]
  · intro live hl hid
    simp [buildNote, hl, hid]

/-- Witness of C4: title "Draft" and content "Hello world" saved over the live
note with id 41. -/
theorem saveCurrentNote_slot_and_head_witness :
    ∃ n rest, n = buildNote tagStripDom 5 7
        (mkSession (some (mkNote "41" "A")) "Draft" "Hello world") ∧
      n.title = strOr (jsTrim "Draft") "Untitled Document" ∧
      n.content = "Hello world" ∧
      (saveCurrentNote tagStripDom 5 7
        (mkSession (some (mkNote "41" "A")) "Draft" "Hello world")).session.storage.current
          = Stored.value n ∧
      (∀ (d : Dom) (t1 t2 t3 : Int), ∃ s2,
        loadCurrentNote d t1 t2 t3 (saveCurrentNote tagStripDom 5 7
          (mkSession (some (mkNote "41" "A")) "Draft" "Hello world")).session
            = Outcome.returned s2 ∧ s2.currentNote = some n) ∧
      parseNotes (saveCurrentNote tagStripDom 5 7
        (mkSession (some (mkNote "41" "A")) "Draft" "Hello world")).session.storage
          = some (n :: rest) ∧
      (saveCurrentNote tagStripDom 5 7
        (mkSession (some (mkNote "41" "A")) "Draft" "Hello world")).session.currentNote
          = some n ∧
      ((saveCurrentNote tagStripDom 5 7 (mkSession (some (mkNote "41" "A")) "Draft"
        "Hello world")).session.currentNote.map Note.id = (n :: rest).head?.map Note.id) ∧
      (∀ live, some (mkNote "41" "A") = some live → live.id ≠ "" →
        (n :: rest).head?.map Note.id = some live.id) :=
  saveCurrentNote_slot_and_head tagStripDom 5 7
    (mkSession (some (mkNote "41" "A")) "Draft" "Hello world")
    (saveCurrentNote tagStripDom 5 7
      (mkSession (some (mkNote "41" "A")) "Draft" "Hello world")).session
    rfl (by decide)

/-- C5, the code at the failing input: for the editor markup
`<p>Hello world</p>`, whose plain-text projection `Hello world` has 11
characters, the saved charCount is 18, the length of the markup. -/
theorem saveCurrentNote_charCount_counts_markup :
    (slotNote (saveCurrentNote tagStripDom 5 7
        (mkSession (some (mkNote "41" "A")) "A" "<p>Hello world</p>")).session).map
          Note.charCount = some 18 ∧
      plainText tagStripDom "<p>Hello world</p>" = "Hello world" ∧
      jsLength (plainText tagStripDom "<p>Hello world</p>") = 11 ∧
      (∀ (dom : Dom) (now idNow : Int) (s : Session),
        (buildNote dom now idNow s).charCount = jsLength s.editorHTML) := by
  refine ⟨by decide, by decide, by decide, fun _ _ _ _ => rfl⟩

/-! ## Derived metrics -/

theorem dropWhile_head_false {α : Type} (p : α → Bool) :
    ∀ (l : List α) (c : α) (r : List α), l.dropWhile p = c :: r → p c = false := by
  intro l
  induction l with
  | nil => intro c r h; simp at h
  | cons a l ih =>
    intro c r h
    rw [List.dropWhile_cons] at h
    by_cases ha : p a = true
    · rw [if_pos ha] at h
      exact ih c r h
    · rw [if_neg ha] at h
      have hac : a = c := (List.cons.inj h).1
      rw [← hac]
      simpa using ha

theorem countWordRunsAux_all_ws (w : List Char) (hw : ∀ c ∈ w, isJSWhitespace c = true) :
    ∀ b, countWordRunsAux w b = 0 := by
  induction w with
  | nil => intro b; rfl
  | cons c w ih =>
    intro b
    have hc : isJSWhitespace c = true := hw c (List.mem_cons_self _ _)
    simp only [countWordRunsAux, hc, if_true]
    exact ih (fun d hd => hw d (List.mem_cons_of_mem _ hd)) false

theorem countWordRunsAux_append_ws (w : List Char) (hw : ∀ c ∈ w, isJSWhitespace c = true) :
    ∀ (l : List Char) (b : Bool), countWordRunsAux (l ++ w) b = countWordRunsAux l b := by
  intro l
  induction l with
  | nil =>
    intro b
    simp only [List.nil_append, countWordRunsAux]
    exact countWordRunsAux_all_ws w hw b
  | cons c l ih =>
    intro b
    rw [List.cons_append]
    simp only [countWordRunsAux, ih]

theorem countWordRunsAux_dropWhile (l : List Char) :
    countWordRunsAux (l.dropWhile isJSWhitespace) false = countWordRunsAux l false := by
  induction l with
  | nil => rfl
  | cons c l ih =>
    rw [List.dropWhile_cons]
    by_cases hc : isJSWhitespace c = true
    · simp only [hc, if_true, countWordRunsAux, ih]
    · simp only [hc, if_false]
      rfl

theorem trimChars_append_ws (l : List Char) :
    ∃ w, (∀ c ∈ w, isJSWhitespace c = true) ∧
      l.dropWhile isJSWhitespace = trimChars l ++ w := by
  refine ⟨((l.dropWhile isJSWhitespace).reverse.takeWhile isJSWhitespace).reverse, ?_, ?_⟩
  · intro c hc
    exact List.mem_takeWhile_imp (List.mem_reverse.mp hc)
  · unfold trimChars
    rw [← List.reverse_append, List.takeWhile_append_dropWhile, List.reverse_reverse]

theorem countWordRunsAux_trimChars (l : List Char) :
    countWordRunsAux (trimChars l) false = countWordRunsAux l false := by
  obtain ⟨w, hw, hl⟩ := trimChars_append_ws l
  rw [← countWordRunsAux_dropWhile l, hl, countWordRunsAux_append_ws w hw]

theorem trimChars_eq_nil_of_all_ws (l : List Char) (h : ∀ c ∈ l, isJSWhitespace c = true) :
    trimChars l = [] := by
  have h1 : l.dropWhile isJSWhitespace = [] := by
    rw [List.dropWhile_eq_nil_iff]
    exact h
  simp [trimChars, h1]

theorem splitWsAux_length (d : Char) (hd : isJSWhitespace d = false) :
    ∀ (l cur : List Char),
      (splitWsAux (l ++ [d]) cur false).length = 1 + countWordRunsAux (l ++ [d]) true ∧
      (splitWsAux (l ++ [d]) cur true).length = countWordRunsAux (l ++ [d]) false := by
  intro l
  induction l with
  | nil =>
    intro cur
    simp [splitWsAux, countWordRunsAux, hd]
  | cons c l ih =>
    intro cur
    by_cases hc : isJSWhitespace c = true
    · rw [List.cons_append]
      simp only [splitWsAux, countWordRunsAux, hc, if_true,
        Bool.false_eq_true, if_false, List.length_cons]
      exact ⟨by rw [(ih []).2]; omega, (ih cur).2⟩
    · rw [List.cons_append]
      simp only [splitWsAux, countWordRunsAux, hc, if_false,
        Bool.false_eq_true, if_true]
      exact ⟨by rw [(ih (c :: cur)).1]; omega, by rw [(ih (c :: cur)).1]⟩

theorem splitWsAux_trimChars_length (l : List Char) (hne : trimChars l ≠ []) :
    (splitWsAux (trimChars l) [] false).length = countWordRunsAux (trimChars l) false := by
  -- the trimmed list ends with a non-whitespace character
  have hlast : ∃ p d, trimChars l = p ++ [d] ∧ isJSWhitespace d = false := by
    cases hr : (l.dropWhile isJSWhitespace).reverse.dropWhile isJSWhitespace with
    | nil => exact absurd (by simp [trimChars, hr]) hne
    | cons d q =>
      exact ⟨q.reverse, d, by simp [trimChars, hr], dropWhile_head_false _ _ d q hr⟩
  -- and starts with one
  obtain ⟨w, -, hl⟩ := trimChars_append_ws l
  cases ht : trimChars l with
  | nil => exact absurd ht hne
  | cons c cs =>
    have hc : isJSWhitespace c = false := by
      rw [ht, List.cons_append] at hl
      exact dropWhile_head_false _ _ c _ hl
    obtain ⟨p, d, hpd, hd⟩ := hlast
    have h1 := (splitWsAux_length d hd p []).1
    rw [← hpd, ht] at h1
    rw [h1]
    simp [countWordRunsAux, hc]

theorem countWordRunsAux_eq_splitOnP (l : List Char) :
    countWordRunsAux l false
        = ((l.splitOnP isJSWhitespace).filter (fun p => !p.isEmpty)).length ∧
      countWordRunsAux l true
        = ((l.splitOnP isJSWhitespace).tail.filter (fun p => !p.isEmpty)).length := by
  induction l with
  | nil => simp [countWordRunsAux]
  | cons c cs ih =>
    rw [List.splitOnP_cons]
    by_cases hc : isJSWhitespace c = true
    · simp [countWordRunsAux, hc, ih.1]
    · obtain ⟨h, t, ht⟩ := List.exists_cons_of_ne_nil (List.splitOnP_ne_nil isJSWhitespace cs)
      rw [ht] at ih
      simp [countWordRunsAux, hc, ht, ih.2]
      omega

theorem string_eq_empty_iff (s : String) : s = "" ↔ s.data = [] := by
  constructor
  · intro h; rw [h]
  · intro h; exact String.ext h

theorem getWordCount_eq_countWordRuns (dom : Dom) (content : String) :
    getWordCount dom content = countWordRuns (plainText dom content) := by
  unfold getWordCount countWordRuns
  simp only
  rw [← countWordRunsAux_trimChars]
  by_cases h : jsTrim (plainText dom content) = ""
  · rw [if_pos h]
    have h1 : trimChars (plainText dom content).data = [] :=
      (string_eq_empty_iff _).mp h
    rw [h1]
    rfl
  · rw [if_neg h]
    have h1 : trimChars (plainText dom content).data ≠ [] :=
      fun e => h ((string_eq_empty_iff _).mpr e)
    simp only [splitWs, List.length_map, jsTrim]
    exact splitWsAux_trimChars_length _ h1

/-- C6: the word count splits the trimmed plain-text projection on whitespace;
it is 0 when the plain text is empty or all whitespace, in every case it is the
number of maximal runs of non-whitespace characters of the plain text (which
is also the number of non-empty pieces left when the text is cut at every
whitespace character), and it is 2 for `Hello world`. -/
theorem getWordCount_spec (dom : Dom) (content : String) :
    ((∀ c ∈ (plainText dom content).data, isJSWhitespace c = true) →
      getWordCount dom content = 0) ∧
    getWordCount dom content = countWordRuns (plainText dom content) ∧
    getWordCount dom content
      = (((plainText dom content).data.splitOnP isJSWhitespace).filter
          (fun p => !p.isEmpty)).length ∧
    (∀ (now idNow : Int) (s : Session), s.editorHTML = content →
      (buildNote dom now idNow s).wordCount = countWordRuns (plainText dom content)) ∧
    (plainText dom content = "Hello world" → getWordCount dom content = 2) := by
  refine ⟨?_, getWordCount_eq_countWordRuns dom content, ?_, ?_, ?_⟩
  rotate_left
  · rw [getWordCount_eq_countWordRuns]
    exact (countWordRunsAux_eq_splitOnP _).1
  rotate_right
  · intro h
    have h1 : jsTrim (plainText dom content) = "" :=
      (string_eq_empty_iff _).mpr (trimChars_eq_nil_of_all_ws _ h)
    simp [getWordCount, h1]
  · intro now idNow s hs
    rw [← hs]
    exact getWordCount_eq_countWordRuns dom s.editorHTML
  · intro h
    rw [getWordCount_eq_countWordRuns, h]
    decide

/-- Witness of C6: the markup `<p>Hello world</p>` has two words. -/
theorem getWordCount_spec_witness :
    plainText tagStripDom "<p>Hello world</p>" = "Hello world" ∧
      getWordCount tagStripDom "<p>Hello world</p>" = 2 :=
  ⟨by decide, (getWordCount_spec tagStripDom "<p>Hello world</p>").2.2.2.2 (by decide)⟩

theorem substring0_of_length_le (t : String) (n : Nat) (h : jsLength t ≤ n) :
    substring0 t n = toUTF16 t :=
  List.take_of_length_le h

/-- C7: with the default limit the preview is the plain-text projection itself
when that has at most 100 characters (UTF-16 code units, as JavaScript counts
them), and otherwise its first 100 characters followed by `...`; the marker is
appended exactly when the projection is longer than 100 characters. -/
theorem getTextPreview_spec (dom : Dom) (content : String) :
    (jsLength (plainText dom content) ≤ 100 →
      getTextPreview dom content defaultMaxLength = toUTF16 (plainText dom content)) ∧
    (jsLength (plainText dom content) > 100 →
      getTextPreview dom content defaultMaxLength
        = substring0 (plainText dom content) 100 ++ toUTF16 "..." ∧
      (substring0 (plainText dom content) 100).length = 100 ∧
      substring0 (plainText dom content) 100 = (toUTF16 (plainText dom content)).take 100) ∧
    (getTextPreview dom content defaultMaxLength).length
      = min (jsLength (plainText dom content)) 100
        + (if jsLength (plainText dom content) > 100 then 3 else 0) ∧
    (∀ (now idNow : Int) (s : Session), s.editorHTML = content →
      (buildNote dom now idNow s).preview
        = some (getTextPreview dom content defaultMaxLength)) := by
  have hshort : jsLength (plainText dom content) ≤ 100 →
      getTextPreview dom content defaultMaxLength = toUTF16 (plainText dom content) := by
    intro h
    have h1 : ¬ jsLength (plainText dom content) > 100 := by omega
    have h2 : toUTF16 "" = [] := rfl
    simp only [getTextPreview, defaultMaxLength, h1, if_false,
      substring0_of_length_le _ _ h, h2, List.append_nil]
  have hlong : jsLength (plainText dom content) > 100 →
      getTextPreview dom content defaultMaxLength
        = substring0 (plainText dom content) 100 ++ toUTF16 "..." := by
    intro h
    simp only [getTextPreview, defaultMaxLength, h, if_true]
  have hcut : jsLength (plainText dom content) > 100 →
      (substring0 (plainText dom content) 100).length = 100 := by
    intro h
    have h2 : 100 < (toUTF16 (plainText dom content)).length := h
    show ((toUTF16 (plainText dom content)).take 100).length = 100
    rw [List.length_take]
    omega
  refine ⟨hshort, fun h => ⟨hlong h, hcut h, rfl⟩, ?_, ?_⟩
  · by_cases h : jsLength (plainText dom content) > 100
    · rw [hlong h, List.length_append, hcut h, if_pos h]
      have h3 : (toUTF16 "...").length = 3 := by decide
      omega
    · rw [hshort (by omega), if_neg h]
      show jsLength (plainText dom content) = _
      omega
  · intro now idNow s hs
    rw [← hs]
    rfl

/-- Witness of C7: a short text is its own preview; a text of 101 letters is
cut to 100 letters followed by the marker; and a text of one letter and 50
characters outside the basic plane (101 code units) is cut after 100 code
units, in the middle of the last surrogate pair. -/
theorem getTextPreview_spec_witness :
    getTextPreview tagStripDom "<p>Hello world</p>" defaultMaxLength = toUTF16 "Hello world" ∧
      getTextPreview tagStripDom (String.mk (List.replicate 101 'a')) defaultMaxLength
        = toUTF16 (String.mk (List.replicate 100 'a')) ++ toUTF16 "..." ∧
      getTextPreview tagStripDom
          (String.mk ('a' :: List.replicate 50 (Char.ofNat 0x1F600))) defaultMaxLength
        = toUTF16 (String.mk ('a' :: List.replicate 49 (Char.ofNat 0x1F600)))
            ++ [0xD83D] ++ toUTF16 "..." :=
  ⟨by rw [(getTextPreview_spec tagStripDom "<p>Hello world</p>").1 (by decide)]; decide,
   by rw [((getTextPreview_spec tagStripDom (String.mk (List.replicate 101 'a'))).2.1
        (by decide)).1]; decide,
   by rw [((getTextPreview_spec tagStripDom
        (String.mk ('a' :: List.replicate 50 (Char.ofNat 0x1F600)))).2.1 (by decide)).1]
      decide⟩

/-! ## Relative time -/

/-- C8: with `d = now - date`, the label is `Just now` for `d < 60000`,
`N minutes ago` with `N = floor (d / 60000)` for `60000 ≤ d < 3600000`,
`N hours ago` with `N = floor (d / 3600000)` for `3600000 ≤ d < 86400000`,
and the calendar date is used only for `d ≥ 86400000`. -/
theorem formatDate_spec (toLocaleDateString : Int → String) (now date : Int) :
    (now - date < 60000 → formatDate toLocaleDateString now date = "Just now") ∧
    (60000 ≤ now - date → now - date < 3600000 →
      formatDate toLocaleDateString now date
        = toString ((now - date) / 60000) ++ " minutes ago" ∧
      (now - date) / 60000 = ⌊((now - date : Int) : ℚ) / 60000⌋) ∧
    (3600000 ≤ now - date → now - date < 86400000 →
      formatDate toLocaleDateString now date
        = toString ((now - date) / 3600000) ++ " hours ago" ∧
      (now - date) / 3600000 = ⌊((now - date : Int) : ℚ) / 3600000⌋) ∧
    (86400000 ≤ now - date →
      formatDate toLocaleDateString now date = toLocaleDateString date) := by
  have hm : ⌊((now - date : Int) : ℚ) / 60000⌋ = (now - date) / 60000 := by
    have := Rat.floor_intCast_div_natCast (now - date) 60000
    simpa using this
  have hh : ⌊((now - date : Int) : ℚ) / 3600000⌋ = (now - date) / 3600000 := by
    have := Rat.floor_intCast_div_natCast (now - date) 3600000
    simpa using this
  refine ⟨?_, ?_, ?_, ?_⟩
  · intro h
    simp only [formatDate, h, if_true]
  · intro h1 h2
    have h3 : ¬ now - date < 60000 := by omega
    exact ⟨by simp only [formatDate, h3, h2, if_true, if_false], hm.symm⟩
  · intro h1 h2
    have h3 : ¬ now - date < 60000 := by omega
    have h4 : ¬ now - date < 3600000 := by omega
    exact ⟨by simp only [formatDate, h3, h4, h2, if_true, if_false], hh.symm⟩
  · intro h1
    have h3 : ¬ now - date < 60000 := by omega
    have h4 : ¬ now - date < 3600000 := by omega
    have h5 : ¬ now - date < 86400000 := by omega
    simp only [formatDate, h3, h4, h5, if_false]

/-- Witness of C8: the three labels of the specification, 45000, 125000 and
7300000 milliseconds before `now = 10000000`. -/
theorem formatDate_spec_witness :
    formatDate (fun _ => "1/1/1970") 10000000 (10000000 - 45000) = "Just now" ∧
      formatDate (fun _ => "1/1/1970") 10000000 (10000000 - 125000) = "2 minutes ago" ∧
      formatDate (fun _ => "1/1/1970") 10000000 (10000000 - 7300000) = "2 hours ago" ∧
      formatDate (fun _ => "1/1/1970") 100000000 0 = "1/1/1970" :=
  ⟨(formatDate_spec (fun _ => "1/1/1970") 10000000 (10000000 - 45000)).1 (by decide),
   by rw [((formatDate_spec (fun _ => "1/1/1970") 10000000 (10000000 - 125000)).2.1
        (by decide) (by decide)).1]; decide,
   by rw [((formatDate_spec (fun _ => "1/1/1970") 10000000 (10000000 - 7300000)).2.2.1
        (by decide) (by decide)).1]; decide,
   (formatDate_spec (fun _ => "1/1/1970") 100000000 0).2.2.2 (by decide)⟩

/-! ## Dirty detection -/

/-- C9: with a live note, the dirty check reports not dirty exactly when the
title input, trimmed and replaced by `Untitled Document` if empty, equals the
live note's title and the editor markup equals the live note's content; it
depends on the live note only through the values of its title and content. -/
theorem hasUnsavedChanges_value_comparison (s : Session) (live : Note)
    (hcur : s.currentNote = some live) :
    (hasUnsavedChanges s = false ↔
      strOr (jsTrim s.documentTitle) "Untitled Document" = live.title ∧
        s.editorHTML = live.content) ∧
    (∀ other : Note, other.title = live.title → other.content = live.content →
      hasUnsavedChanges { s with currentNote := some other } = hasUnsavedChanges s) := by
  constructor
  · simp only [hasUnsavedChanges, hcur, Bool.or_eq_false_iff, bne_eq_false_iff_eq]
    constructor
    · rintro ⟨h1, h2⟩
      exact ⟨h1.symm, h2.symm⟩
    · rintro ⟨h1, h2⟩
      exact ⟨h1.symm, h2.symm⟩
  · intro other ht hc
    simp only [hasUnsavedChanges, hcur, ht, hc]

/-- Witness of C9: with live note title `A` and content `<p>x</p>`, the title
`A` is not dirty and the title `B` is dirty. -/
theorem hasUnsavedChanges_value_comparison_witness :
    hasUnsavedChanges (mkSession (some { mkNote "41" "A" with content := "<p>x</p>" })
        "A" "<p>x</p>") = false ∧
      hasUnsavedChanges (mkSession (some { mkNote "41" "A" with content := "<p>x</p>" })
        "B" "<p>x</p>") = true :=
  ⟨(hasUnsavedChanges_value_comparison
      (mkSession (some { mkNote "41" "A" with content := "<p>x</p>" }) "A" "<p>x</p>")
      { mkNote "41" "A" with content := "<p>x</p>" } rfl).1.mpr (by decide),
   by
    have h := (hasUnsavedChanges_value_comparison
      (mkSession (some { mkNote "41" "A" with content := "<p>x</p>" }) "B" "<p>x</p>")
      { mkNote "41" "A" with content := "<p>x</p>" } rfl).1
    cases hb : hasUnsavedChanges
        (mkSession (some { mkNote "41" "A" with content := "<p>x</p>" }) "B" "<p>x</p>") with
    | true => rfl
    | false => exact absurd (h.mp hb).1 (by decide)⟩

/-- C10: right after a save that ran to completion the session is not dirty,
whatever the title input holds (a blank title is saved as `Untitled Document`
and compared as such); the autosave check then saves nothing, and a second save
in succession runs to completion and again leaves the session not dirty. -/
theorem saveCurrentNote_not_dirty (dom : Dom) (now idNow : Int) (s s1 : Session)
    (hsav : s.isSaving = false)
    (h : saveCurrentNote dom now idNow s = Outcome.returned s1) :
    hasUnsavedChanges s1 = false ∧
    s1.isSaving = false ∧
    (jsTrim s.documentTitle = "" →
      s1.currentNote.map Note.title = some "Untitled Document") ∧
    (∀ now2 idNow2 : Int, autoSaveTick dom now2 idNow2 s1 = Outcome.returned s1) ∧
    (∀ now2 idNow2 : Int, ∃ s2, saveCurrentNote dom now2 idNow2 s1 = Outcome.returned s2 ∧
      hasUnsavedChanges s2 = false ∧
      s2.currentNote.map Note.title = s1.currentNote.map Note.title ∧
      s2.currentNote.map Note.content = s1.currentNote.map Note.content) := by
  obtain ⟨l, -, -, rfl⟩ := saveCurrentNote_returned dom now idNow s s1 hsav h
  have hclean : ∀ (n1 n2 : Int) (t : Session),
      hasUnsavedChanges { t with currentNote := some (buildNote dom n1 n2 t) } = false := by
    intro n1 n2 t
    simp [hasUnsavedChanges, buildNote]
  refine ⟨?_, rfl, ?_, ?_, ?_⟩
  · simp [hasUnsavedChanges, buildNote]
  · intro ht
    simp [buildNote, ht, strOr]
  · intro now2 idNow2
    simp [autoSaveTick, hasUnsavedChanges, buildNote]
  · intro now2 idNow2
    refine ⟨_, saveCurrentNote_ok dom now2 idNow2 _ _ rfl rfl rfl, ?_, ?_, ?_⟩
    · simp [hasUnsavedChanges, buildNote]
    · simp [buildNote]
    · simp [buildNote]

/-- Witness of C10: a save with a whitespace-only title over the live note with
id 41. -/
theorem saveCurrentNote_not_dirty_witness :
    hasUnsavedChanges (saveCurrentNote tagStripDom 5 7
        (mkSession (some (mkNote "41" "A")) "   " "<p>x</p>")).session = false ∧
      (saveCurrentNote tagStripDom 5 7
        (mkSession (some (mkNote "41" "A")) "   " "<p>x</p>")).session.currentNote.map
          Note.title = some "Untitled Document" :=
  ⟨(saveCurrentNote_not_dirty tagStripDom 5 7
      (mkSession (some (mkNote "41" "A")) "   " "<p>x</p>")
      (saveCurrentNote tagStripDom 5 7
        (mkSession (some (mkNote "41" "A")) "   " "<p>x</p>")).session rfl (by decide)).1,
   (saveCurrentNote_not_dirty tagStripDom 5 7
      (mkSession (some (mkNote "41" "A")) "   " "<p>x</p>")
      (saveCurrentNote tagStripDom 5 7
        (mkSession (some (mkNote "41" "A")) "   " "<p>x</p>")).session rfl (by decide)).2.2.1
      (by decide)⟩

/-! ## Failing writes and the saving flag -/

/-- C11, the code at the failing input: on a store whose write fails, `save()`
throws and leaves the live note unchanged but the saving flag set; the next
`save()`, even with the store writable again, returns at the reentrancy guard
and writes nothing. -/
theorem saveCurrentNote_failed_write_blocks_retry :
    saveCurrentNote tagStripDom 5 7
        (mkSessionOn { emptyStorage with writable := false } (some (mkNote "41" "A")) "Draft" "x")
      = Outcome.threw
        { mkSessionOn { emptyStorage with writable := false } (some (mkNote "41" "A")) "Draft" "x"
          with isSaving := true } ∧
    hasUnsavedChanges
        { mkSessionOn { emptyStorage with writable := false } (some (mkNote "41" "A")) "Draft" "x"
          with isSaving := true } = true ∧
    saveCurrentNote tagStripDom 6 8
        { mkSessionOn emptyStorage (some (mkNote "41" "A")) "Draft" "x" with isSaving := true }
      = Outcome.returned
        { mkSessionOn emptyStorage (some (mkNote "41" "A")) "Draft" "x" with isSaving := true } ∧
    (saveCurrentNote tagStripDom 6 8
        { mkSessionOn emptyStorage (some (mkNote "41" "A")) "Draft" "x"
          with isSaving := true }).session.storage = emptyStorage := by
  refine ⟨by decide, by decide, by decide, by decide⟩

/-- C16: with the saving flag set, `save()` returns at once and leaves the whole
session (slot, list, live note, flag) as it was; a save that starts with the
flag clear and returns leaves the flag clear. -/
theorem saveCurrentNote_reentrant (dom : Dom) (now idNow : Int) (s : Session) :
    (s.isSaving = true → saveCurrentNote dom now idNow s = Outcome.returned s) ∧
    (s.isSaving = true →
      (saveCurrentNote dom now idNow s).session.storage = s.storage ∧
      (saveCurrentNote dom now idNow s).session.currentNote = s.currentNote ∧
      (saveCurrentNote dom now idNow s).session.isSaving = s.isSaving) ∧
    (s.isSaving = false → ∀ s1, saveCurrentNote dom now idNow s = Outcome.returned s1 →
      s1.isSaving = false) := by
  have h1 : s.isSaving = true → saveCurrentNote dom now idNow s = Outcome.returned s := by
    intro h
    simp [saveCurrentNote, h]
  refine ⟨h1, ?_, ?_⟩
  · intro h
    rw [h1 h]
    exact ⟨rfl, rfl, rfl⟩
  · intro h s1 hs1
    obtain ⟨l, -, -, rfl⟩ := saveCurrentNote_returned dom now idNow s s1 h hs1
    rfl

/-- Witness of C16: a save with the flag set is a no-op, and a save with the
flag clear on the empty store ends with the flag clear. -/
theorem saveCurrentNote_reentrant_witness :
    saveCurrentNote tagStripDom 6 8
        { mkSession (some (mkNote "41" "A")) "Draft" "x" with isSaving := true }
      = Outcome.returned
        { mkSession (some (mkNote "41" "A")) "Draft" "x" with isSaving := true } ∧
    (saveCurrentNote tagStripDom 6 8
        (mkSession (some (mkNote "41" "A")) "Draft" "x")).session.isSaving = false :=
  ⟨(saveCurrentNote_reentrant tagStripDom 6 8
      { mkSession (some (mkNote "41" "A")) "Draft" "x" with isSaving := true }).1 rfl,
   (saveCurrentNote_reentrant tagStripDom 6 8
      (mkSession (some (mkNote "41" "A")) "Draft" "x")).2.2 rfl _ (by decide)⟩

/-! ## Loading the current note -/

/-- Counterexample to C12 as stated: when the slot holds text that is not JSON,
`loadCurrentNote` throws and the session is left without a live note. -/
theorem loadCurrentNote_malformed_counterexample :
    loadCurrentNote tagStripDom 1 2 3
        (mkSessionOn { emptyStorage with current := Stored.malformed } none "" "")
      = Outcome.threw
        (mkSessionOn { emptyStorage with current := Stored.malformed } none "" "") ∧
    (loadCurrentNote tagStripDom 1 2 3
        (mkSessionOn { emptyStorage with current := Stored.malformed } none "" "")
      ).session.currentNote = none := by
  refine ⟨by decide, by decide⟩

/-- C12, amended: `loadCurrentNote` makes the note of the slot the live note
when the slot holds a parseable note, and when the slot is absent it returns
with a fresh default note: title `Untitled Document`, empty content, zero word
and character counts, and id, createdAt and updatedAt read from the clock. -/
theorem loadCurrentNote_spec (dom : Dom) (idNow createdNow updatedNow : Int) (s : Session) :
    (∀ n, s.storage.current = Stored.value n →
      loadCurrentNote dom idNow createdNow updatedNow s = Outcome.returned
        { s with
          documentTitle := dom.inputValue n.title
          editorHTML := dom.innerHTML n.content
          currentNote := some n }) ∧
    (s.storage.current = Stored.absent →
      ∃ s1 d, loadCurrentNote dom idNow createdNow updatedNow s = Outcome.returned s1 ∧
        s1.currentNote = some d ∧ s1.storage = s.storage ∧
        s1.documentTitle = "Untitled Document" ∧ s1.editorHTML = "" ∧
        d.id = toString idNow ∧ d.title = "Untitled Document" ∧ d.content = "" ∧
        d.wordCount = 0 ∧ d.charCount = 0 ∧
        d.createdAt = some createdNow ∧ d.updatedAt = updatedNow) := by
  constructor
  · intro n hn
    have hor : strOr n.content "" = n.content := by
      unfold strOr
      split
      · next h => exact h.symm
      · rfl
    simp only [loadCurrentNote, hn, hor]
  · intro ha
    simp only [loadCurrentNote, ha]
    refine ⟨_, _, rfl, rfl, rfl, ?_, ?_, rfl, rfl, rfl, rfl, rfl, rfl, rfl⟩
    · exact dom.inputValue_of_no_line_break "Untitled Document" (by decide)
    · exact dom.innerHTML_empty

/-- Witness of C12, amended: a slot holding the note with id 41, and an absent
slot read at clock value 9. -/
theorem loadCurrentNote_spec_witness :
    loadCurrentNote tagStripDom 9 9 9
        (mkSessionOn { emptyStorage with current := Stored.value (mkNote "41" "A") } none "" "")
      = Outcome.returned
        { mkSessionOn { emptyStorage with current := Stored.value (mkNote "41" "A") } none "" ""
          with documentTitle := tagStripDom.inputValue "A", editorHTML := tagStripDom.innerHTML "",
               currentNote := some (mkNote "41" "A") } ∧
    (∃ s1 d, loadCurrentNote tagStripDom 9 9 9 (mkSession none "" "") = Outcome.returned s1 ∧
        s1.currentNote = some d ∧ s1.storage = (mkSession none "" "").storage ∧
        s1.documentTitle = "Untitled Document" ∧ s1.editorHTML = "" ∧
        d.id = toString (9 : Int) ∧ d.title = "Untitled Document" ∧ d.content = "" ∧
        d.wordCount = 0 ∧ d.charCount = 0 ∧
        d.createdAt = some 9 ∧ d.updatedAt = 9) :=
  ⟨(loadCurrentNote_spec tagStripDom 9 9 9
      (mkSessionOn { emptyStorage with current := Stored.value (mkNote "41" "A") } none "" "")).1
      (mkNote "41" "A") rfl,
   (loadCurrentNote_spec tagStripDom 9 9 9 (mkSession none "" "")).2 rfl⟩

/-! ## Switching notes -/

theorem findNote_cons_self (n : Note) (l : List Note) : findNote (n :: l) n.id = some n := by
  simp [findNote]

theorem findNote_cons_ne (n : Note) (l : List Note) (b : String) (h : n.id ≠ b) :
    findNote (n :: l) b = findNote l b := by
  simp [findNote, List.find?_cons, h]

theorem findNote_filter_ne (a b : String) (hab : a ≠ b) (l : List Note) :
    findNote (l.filter (fun n => n.id != a)) b = findNote l b := by
  induction l with
  | nil => rfl
  | cons n l ih =>
    by_cases hn : n.id = a
    · have hb : n.id ≠ b := fun e => hab (hn ▸ e)
      rw [List.filter_cons_of_neg (by simp [hn]), ih, findNote_cons_ne n l b hb]
    · rw [List.filter_cons_of_pos (by simpa using hn)]
      by_cases hb : n.id = b
      · simp [findNote, List.find?_cons, hb]
      · rw [findNote_cons_ne _ _ b hb, findNote_cons_ne _ _ b hb, ih]

theorem findNote_take (b : String) (k : Nat) :
    ∀ l : List Note, findNote (l.take k) b = findNote l b ∨ findNote (l.take k) b = none := by
  induction k with
  | zero => intro l; right; rfl
  | succ k ih =>
    intro l
    cases l with
    | nil => left; rfl
    | cons n l =>
      rw [List.take_succ_cons]
      by_cases hb : n.id = b
      · left
        simp [findNote, List.find?_cons, hb]
      · rw [findNote_cons_ne _ _ b hb, findNote_cons_ne _ _ b hb]
        exact ih l

theorem loadNoteById_unfold (dom : Dom) (now idNow : Int) (b : String) (s : Session)
    (notes : List Note) (target : Note)
    (hq : parseNotes s.storage = some notes) (hfind : findNote notes b = some target) :
    loadNoteById dom now idNow b s =
      match saveCurrentNote dom now idNow s with
      | Outcome.threw s1 => Outcome.threw s1
      | Outcome.returned s1 =>
        Outcome.returned
          { s1 with
            documentTitle := dom.inputValue target.title
            editorHTML := dom.innerHTML target.content
            currentNote := some target } := by
  simp only [loadNoteById, hq, hfind]

theorem loadNoteById_ok (dom : Dom) (now idNow : Int) (b : String) (s : Session)
    (notes : List Note) (target : Note)
    (hsav : s.isSaving = false) (hw : s.storage.writable = true)
    (hq : parseNotes s.storage = some notes) (hfind : findNote notes b = some target) :
    loadNoteById dom now idNow b s = Outcome.returned
      { s with
        isSaving := false
        documentTitle := dom.inputValue target.title
        editorHTML := dom.innerHTML target.content
        currentNote := some target
        storage :=
          { current := Stored.value (buildNote dom now idNow s)
            notes := Stored.value ((buildNote dom now idNow s ::
              notes.filter (fun n => n.id != (buildNote dom now idNow s).id)).take 100)
            writable := true } } := by
  rw [loadNoteById_unfold dom now idNow b s notes target hq hfind,
    saveCurrentNote_ok dom now idNow s notes hsav hw hq]

theorem buildNote_id_of_live (dom : Dom) (now idNow : Int) (s : Session) (live : Note)
    (hcur : s.currentNote = some live) (hid : live.id ≠ "") :
    (buildNote dom now idNow s).id = live.id := by
  simp [buildNote, hcur, hid]

/-- Counterexample to C13 as stated: a dirty session on live note 41 whose title
input is ` Draft` switches to note 2; the list then holds no record with id 41
and title ` Draft` (the record saved has the trimmed title `Draft`).  And when
the live note's id is the empty string no record with that id is in the list
afterwards. -/
theorem loadNoteById_title_counterexample :
    hasUnsavedChanges (mkSessionOn
        (mkStorage (Stored.value (mkNote "41" "A")) [mkNote "2" "B", mkNote "41" "A"])
        (some (mkNote "41" "A")) " Draft" "x") = true ∧
    (∃ l1, parseNotes (loadNoteById tagStripDom 5 7 "2" (mkSessionOn
        (mkStorage (Stored.value (mkNote "41" "A")) [mkNote "2" "B", mkNote "41" "A"])
        (some (mkNote "41" "A")) " Draft" "x")).session.storage = some l1 ∧
      (∀ r ∈ l1, ¬ (r.id = "41" ∧ r.title = " Draft")) ∧
      (findNote l1 "41").map Note.title = some "Draft") ∧
    (∃ l1, parseNotes (loadNoteById tagStripDom 5 7 "2" (mkSessionOn
        (mkStorage (Stored.value falsyNote) [mkNote "2" "B"])
        (some falsyNote) "Draft" "x")).session.storage = some l1 ∧
      (∀ r ∈ l1, r.id ≠ falsyNote.id)) := by
  refine ⟨by decide, ⟨_, rfl, by decide, by decide⟩, ⟨_, rfl, by decide⟩⟩

/-- C13, amended: when no save is in flight, the store is writable and the live
note's id is not the empty string, after a switch to an id present in the list
the list holds, under the live note's id, a record whose title is the title
input trimmed (or `Untitled Document` when that is empty) and whose content is
the editor content at the time of the switch. -/
theorem loadNoteById_saves_live (dom : Dom) (now idNow : Int) (b : String) (s : Session)
    (live : Note) (notes : List Note) (target : Note)
    (hcur : s.currentNote = some live) (hid : live.id ≠ "")
    (hsav : s.isSaving = false) (hw : s.storage.writable = true)
    (hq : parseNotes s.storage = some notes) (hfind : findNote notes b = some target) :
    ∃ s1 l1 r, loadNoteById dom now idNow b s = Outcome.returned s1 ∧
      parseNotes s1.storage = some l1 ∧ r ∈ l1 ∧ findNote l1 live.id = some r ∧
      r.id = live.id ∧
      r.title = strOr (jsTrim s.documentTitle) "Untitled Document" ∧
      r.content = s.editorHTML := by
  have hbid := buildNote_id_of_live dom now idNow s live hcur hid
  refine ⟨_, _, buildNote dom now idNow s,
    loadNoteById_ok dom now idNow b s notes target hsav hw hq hfind, rfl, ?_, ?_, hbid, rfl, rfl⟩
  · rw [List.take_succ_cons]
    exact List.mem_cons_self _ _
  · rw [List.take_succ_cons, ← hbid]
    exact findNote_cons_self _ _

/-- Witness of C13, amended: the switch from live note 41 with title input
`Draft` to note 2. -/
theorem loadNoteById_saves_live_witness :
    ∃ s1 l1 r, loadNoteById tagStripDom 5 7 "2" (mkSessionOn
        (mkStorage (Stored.value (mkNote "41" "A")) [mkNote "2" "B", mkNote "41" "A"])
        (some (mkNote "41" "A")) "Draft" "x") = Outcome.returned s1 ∧
      parseNotes s1.storage = some l1 ∧ r ∈ l1 ∧ findNote l1 (mkNote "41" "A").id = some r ∧
      r.id = (mkNote "41" "A").id ∧
      r.title = strOr (jsTrim "Draft") "Untitled Document" ∧
      r.content = "x" :=
  loadNoteById_saves_live tagStripDom 5 7 "2" (mkSessionOn
      (mkStorage (Stored.value (mkNote "41" "A")) [mkNote "2" "B", mkNote "41" "A"])
      (some (mkNote "41" "A")) "Draft" "x")
    (mkNote "41" "A") [mkNote "2" "B", mkNote "41" "A"] (mkNote "2" "B")
    rfl (by decide) rfl rfl rfl (by decide)

theorem hasUnsavedChanges_loaded (s1 : Session) (target : Note)
    (h1 : s1.currentNote = some target) (h2 : s1.documentTitle = target.title)
    (h3 : s1.editorHTML = target.content) :
    hasUnsavedChanges s1 = false ↔
      strOr (jsTrim target.title) "Untitled Document" = target.title := by
  simp only [hasUnsavedChanges, h1, h2, h3, Bool.or_eq_false_iff, bne_eq_false_iff_eq,
    and_true]
  exact eq_comm

/-- C14, the code at the failing input: a dirty session on live note 41
(stored title `A`, empty content, title input `Draft`, editor `x`) switches to
id 41 itself.  The record is looked up before the save, so on every host the
live note is the stale record and the editor shows its title `A` and empty
content, while the list holds under id 41 the record with title `Draft` and
content `x` that the save has just written; the live note and that record
differ. -/
theorem loadNoteById_own_id_loads_stale :
    ((loadNoteById tagStripDom 5 7 "41" (mkSessionOn
        (mkStorage (Stored.value (mkNote "41" "A")) [mkNote "2" "B", mkNote "41" "A"])
        (some (mkNote "41" "A")) "Draft" "x")).session.currentNote.map Note.title = some "A" ∧
      ((parseNotes (loadNoteById tagStripDom 5 7 "41" (mkSessionOn
        (mkStorage (Stored.value (mkNote "41" "A")) [mkNote "2" "B", mkNote "41" "A"])
        (some (mkNote "41" "A")) "Draft" "x")).session.storage).bind
          (fun l1 => findNote l1 "41")).map Note.title = some "Draft") ∧
    (∀ dom : Dom, ∃ s1 l1 r,
      loadNoteById dom 5 7 "41" (mkSessionOn
        (mkStorage (Stored.value (mkNote "41" "A")) [mkNote "2" "B", mkNote "41" "A"])
        (some (mkNote "41" "A")) "Draft" "x") = Outcome.returned s1 ∧
      s1.currentNote = some (mkNote "41" "A") ∧
      s1.documentTitle = "A" ∧ s1.editorHTML = "" ∧
      parseNotes s1.storage = some l1 ∧ findNote l1 "41" = some r ∧
      r.title = "Draft" ∧ r.content = "x" ∧
      s1.currentNote ≠ some r) := by
  refine ⟨⟨by decide, by decide⟩, ?_⟩
  intro dom
  have hrun := loadNoteById_ok dom 5 7 "41" (mkSessionOn
    (mkStorage (Stored.value (mkNote "41" "A")) [mkNote "2" "B", mkNote "41" "A"])
    (some (mkNote "41" "A")) "Draft" "x") [mkNote "2" "B", mkNote "41" "A"] (mkNote "41" "A")
    rfl rfl rfl (by decide)
  have hid : (buildNote dom 5 7 (mkSessionOn
      (mkStorage (Stored.value (mkNote "41" "A")) [mkNote "2" "B", mkNote "41" "A"])
      (some (mkNote "41" "A")) "Draft" "x")).id = "41" :=
    buildNote_id_of_live dom 5 7 _ (mkNote "41" "A") rfl (by decide)
  have htitle : (buildNote dom 5 7 (mkSessionOn
      (mkStorage (Stored.value (mkNote "41" "A")) [mkNote "2" "B", mkNote "41" "A"])
      (some (mkNote "41" "A")) "Draft" "x")).title = "Draft" := by
    show strOr (jsTrim "Draft") "Untitled Document" = "Draft"
    decide
  refine ⟨_, _, _, hrun, rfl, ?_, dom.innerHTML_empty, rfl, ?_, htitle, rfl, ?_⟩
  · exact dom.inputValue_of_no_line_break "A" (by decide)
  · rw [List.take_succ_cons, ← hid]
    exact findNote_cons_self _ _
  · intro h
    have ht := congrArg Note.title (Option.some.inj h)
    rw [htitle] at ht
    exact absurd ht (by decide)

/-- A switch to an id found in the list, other than the id under which the live
note is saved, on a writable store: the live note is the record found, the
title input and the editor read what the host gives for its title and content,
the list afterwards holds the same record under the id unless the cap has
evicted it (which needs a list of at least 100 entries), and the session is
not dirty exactly when those readings agree with the record. -/
theorem loadNoteById_other_id (dom : Dom) (now idNow : Int) (b : String) (s : Session)
    (notes : List Note) (target : Note)
    (hw : s.storage.writable = true)
    (hq : parseNotes s.storage = some notes) (hfind : findNote notes b = some target)
    (hne : s.isSaving = false → (buildNote dom now idNow s).id ≠ b) :
    ∃ s1 l1, loadNoteById dom now idNow b s = Outcome.returned s1 ∧
      parseNotes s1.storage = some l1 ∧
      s1.currentNote = some target ∧
      s1.documentTitle = dom.inputValue target.title ∧
      s1.editorHTML = dom.innerHTML target.content ∧
      (findNote l1 b = some target ∨ findNote l1 b = none) ∧
      (notes.length < 100 → findNote l1 b = some target) ∧
      (hasUnsavedChanges s1 = false ↔
        strOr (jsTrim (dom.inputValue target.title)) "Untitled Document" = target.title ∧
          dom.innerHTML target.content = target.content) := by
  have hdirty : ∀ s1 : Session, s1.currentNote = some target →
      s1.documentTitle = dom.inputValue target.title →
      s1.editorHTML = dom.innerHTML target.content →
      (hasUnsavedChanges s1 = false ↔
        strOr (jsTrim (dom.inputValue target.title)) "Untitled Document" = target.title ∧
          dom.innerHTML target.content = target.content) := by
    intro s1 h1 h2 h3
    simp only [hasUnsavedChanges, h1, h2, h3, Bool.or_eq_false_iff, bne_eq_false_iff_eq]
    constructor
    · rintro ⟨e1, e2⟩
      exact ⟨e1.symm, e2.symm⟩
    · rintro ⟨e1, e2⟩
      exact ⟨e1.symm, e2.symm⟩
  cases hsav : s.isSaving with
  | true =>
    have hsave : saveCurrentNote dom now idNow s = Outcome.returned s := by
      simp [saveCurrentNote, hsav]
    refine ⟨{ s with
        documentTitle := dom.inputValue target.title
        editorHTML := dom.innerHTML target.content
        currentNote := some target },
      notes, ?_, hq, rfl, rfl, rfl, Or.inl hfind, fun _ => hfind, hdirty _ rfl rfl rfl⟩
    rw [loadNoteById_unfold dom now idNow b s notes target hq hfind, hsave]
  | false =>
    have hb := hne hsav
    have hrest : findNote (buildNote dom now idNow s ::
        notes.filter (fun n => n.id != (buildNote dom now idNow s).id)) b = some target := by
      rw [findNote_cons_ne _ _ b hb, findNote_filter_ne _ b hb, hfind]
    refine ⟨_, _, loadNoteById_ok dom now idNow b s notes target hsav hw hq hfind, rfl,
      rfl, rfl, rfl, ?_, ?_, hdirty _ rfl rfl rfl⟩
    · rcases findNote_take b 100 (buildNote dom now idNow s ::
          notes.filter (fun n => n.id != (buildNote dom now idNow s).id)) with h | h
      · exact Or.inl (h.trans hrest)
      · exact Or.inr h
    · intro hlen
      have hle : (buildNote dom now idNow s ::
          notes.filter (fun n => n.id != (buildNote dom now idNow s).id)).length ≤ 100 := by
        have := List.length_filter_le (fun n => n.id != (buildNote dom now idNow s).id) notes
        simp only [List.length_cons]
        omega
      show findNote (List.take 100 _) b = some target
      rw [List.take_of_length_le hle]
      exact hrest

/-! ## The current-note slot -/

/-- Counterexample to C15 as stated: start-up on a store whose slot holds note
41 and whose list holds notes 2 and 41, then a switch to note 2, leaves note 41
in the slot while the live note is note 2; and `createNew()` at clock value 9
leaves note 41 in the slot while the live note has id 9. -/
theorem slot_not_live_counterexample :
    (init tagStripDom 1 1 1
        (mkStorage (Stored.value (mkNote "41" "A")) [mkNote "2" "B", mkNote "41" "A"])
      = Outcome.returned (mkSessionOn
          (mkStorage (Stored.value (mkNote "41" "A")) [mkNote "2" "B", mkNote "41" "A"])
          (some (mkNote "41" "A")) "A" "")) ∧
    (loadNoteById tagStripDom 5 7 "2" (mkSessionOn
          (mkStorage (Stored.value (mkNote "41" "A")) [mkNote "2" "B", mkNote "41" "A"])
          (some (mkNote "41" "A")) "A" "")
      = Outcome.returned (loadNoteById tagStripDom 5 7 "2" (mkSessionOn
          (mkStorage (Stored.value (mkNote "41" "A")) [mkNote "2" "B", mkNote "41" "A"])
          (some (mkNote "41" "A")) "A" "")).session ∧
      (slotNote (loadNoteById tagStripDom 5 7 "2" (mkSessionOn
          (mkStorage (Stored.value (mkNote "41" "A")) [mkNote "2" "B", mkNote "41" "A"])
          (some (mkNote "41" "A")) "A" "")).session).map Note.id = some "41" ∧
      (loadNoteById tagStripDom 5 7 "2" (mkSessionOn
          (mkStorage (Stored.value (mkNote "41" "A")) [mkNote "2" "B", mkNote "41" "A"])
          (some (mkNote "41" "A")) "A" "")).session.currentNote.map Note.id = some "2") ∧
    (createNewNote tagStripDom 5 7 9 9 9 (mkSessionOn
          (mkStorage (Stored.value (mkNote "41" "A")) [mkNote "2" "B", mkNote "41" "A"])
          (some (mkNote "41" "A")) "A" "")
      = Outcome.returned (createNewNote tagStripDom 5 7 9 9 9 (mkSessionOn
          (mkStorage (Stored.value (mkNote "41" "A")) [mkNote "2" "B", mkNote "41" "A"])
          (some (mkNote "41" "A")) "A" "")).session ∧
      (slotNote (createNewNote tagStripDom 5 7 9 9 9 (mkSessionOn
          (mkStorage (Stored.value (mkNote "41" "A")) [mkNote "2" "B", mkNote "41" "A"])
          (some (mkNote "41" "A")) "A" "")).session).map Note.id = some "41" ∧
      (createNewNote tagStripDom 5 7 9 9 9 (mkSessionOn
          (mkStorage (Stored.value (mkNote "41" "A")) [mkNote "2" "B", mkNote "41" "A"])
          (some (mkNote "41" "A")) "A" "")).session.currentNote.map Note.id = some "9") := by
  refine ⟨by decide, ⟨by decide, by decide, by decide⟩, ⟨by decide, by decide, by decide⟩⟩

/-- C15, amended: from a state with no save in flight, after `save()` the slot
holds the live note; after `switchTo(id)` to an id found in the list and after
`createNew()` the slot holds the note written by the save these perform first,
built from the previous live note and the editor, while the live note is the
target record, respectively the new default record. -/
theorem slot_after_operations (dom : Dom) (now idNow : Int) (s : Session)
    (hsav : s.isSaving = false) :
    (∀ s1, saveCurrentNote dom now idNow s = Outcome.returned s1 →
      slotNote s1 = s1.currentNote ∧ s1.currentNote = some (buildNote dom now idNow s)) ∧
    (∀ b notes target s1, parseNotes s.storage = some notes →
      findNote notes b = some target →
      loadNoteById dom now idNow b s = Outcome.returned s1 →
      slotNote s1 = some (buildNote dom now idNow s) ∧ s1.currentNote = some target ∧
      s1.isSaving = false) ∧
    (∀ t1 t2 t3 s1, createNewNote dom now idNow t1 t2 t3 s = Outcome.returned s1 →
      slotNote s1 = some (buildNote dom now idNow s) ∧
      s1.currentNote = some (newNote t1 t2 t3) ∧ s1.isSaving = false) := by
  refine ⟨?_, ?_, ?_⟩
  · intro s1 h
    obtain ⟨l, -, -, rfl⟩ := saveCurrentNote_returned dom now idNow s s1 hsav h
    exact ⟨rfl, rfl⟩
  · intro b notes target s1 hq hfind h
    rw [loadNoteById_unfold dom now idNow b s notes target hq hfind] at h
    cases hres : saveCurrentNote dom now idNow s with
    | threw s2 => simp [hres] at h
    | returned s2 =>
      obtain ⟨l, -, -, rfl⟩ := saveCurrentNote_returned dom now idNow s s2 hsav hres
      simp only [hres, Outcome.returned.injEq] at h
      rw [← h]
      exact ⟨rfl, rfl, rfl⟩
  · intro t1 t2 t3 s1 h
    cases hres : saveCurrentNote dom now idNow s with
    | threw s2 => simp [createNewNote, hres] at h
    | returned s2 =>
      obtain ⟨l, -, -, rfl⟩ := saveCurrentNote_returned dom now idNow s s2 hsav hres
      simp only [createNewNote, hres, Outcome.returned.injEq] at h
      rw [← h]
      exact ⟨rfl, rfl, rfl⟩

/-- Witness of C15, amended: a save of live note 41 on the empty store. -/
theorem slot_after_operations_witness :
    slotNote (saveCurrentNote tagStripDom 5 7
        (mkSession (some (mkNote "41" "A")) "Draft" "x")).session
      = (saveCurrentNote tagStripDom 5 7
        (mkSession (some (mkNote "41" "A")) "Draft" "x")).session.currentNote ∧
    (saveCurrentNote tagStripDom 5 7
        (mkSession (some (mkNote "41" "A")) "Draft" "x")).session.currentNote
      = some (buildNote tagStripDom 5 7 (mkSession (some (mkNote "41" "A")) "Draft" "x")) :=
  (slot_after_operations tagStripDom 5 7 (mkSession (some (mkNote "41" "A")) "Draft" "x")
    rfl).1 _ (by decide)

/-! ## Export -/

theorem string_append_left_cancel (a b c : String) (h : a ++ b = a ++ c) : b = c := by
  have hd := congrArg String.data h
  rw [String.data_append, String.data_append] at hd
  exact String.ext (List.append_cancel_left hd)

theorem string_append_right_cancel (a b c : String) (h : a ++ c = b ++ c) : a = b := by
  have hd := congrArg String.data h
  rw [String.data_append, String.data_append] at hd
  exact String.ext (List.append_cancel_right hd)

theorem exportAsHTML_content_date (toLocaleDateString : Int → String) (now1 now2 : Int)
    (title content : String) (s1 s2 : Session)
    (h : (exportAsHTML toLocaleDateString now1 title content s1).1.content
      = (exportAsHTML toLocaleDateString now2 title content s2).1.content) :
    toLocaleDateString now1 = toLocaleDateString now2 := by
  simp only [exportAsHTML] at h
  exact string_append_left_cancel _ _ _ (string_append_right_cancel _ _ _ h)

theorem exportAsTXT_content_date (toLocaleDateString : Int → String) (now1 now2 : Int)
    (title content : String) (s1 s2 : Session)
    (h : (exportAsTXT toLocaleDateString now1 title content s1).1.content
      = (exportAsTXT toLocaleDateString now2 title content s2).1.content) :
    toLocaleDateString now1 = toLocaleDateString now2 := by
  simp only [exportAsTXT] at h
  exact string_append_left_cancel _ _ _ h

/-- Counterexample to C17 as stated: with the same title and content, the HTML
and the text payloads exported at clock values 0 and 86400000 differ, because
each carries the export date. -/
theorem export_date_counterexample :
    (exportAsHTML dayNumber 0 "T" "c" (mkSession none "" "")).1.content
      ≠ (exportAsHTML dayNumber 86400000 "T" "c" (mkSession none "" "")).1.content ∧
    (exportAsTXT dayNumber 0 "T" "c" (mkSession none "" "")).1.content
      ≠ (exportAsTXT dayNumber 86400000 "T" "c" (mkSession none "" "")).1.content :=
  ⟨fun h => absurd (exportAsHTML_content_date dayNumber 0 86400000 "T" "c" _ _ h) (by decide),
   fun h => absurd (exportAsTXT_content_date dayNumber 0 86400000 "T" "c" _ _ h) (by decide)⟩

/-- C17, amended: the filename and content type of each export depend on the
title only; the DOCX payload depends on the title and content only; the HTML
and text payloads depend on the title, the content and the rendering of the
export date, so two invocations with the same title and content on dates that
render alike give the same payload, and only those do; no export depends on
the session or changes it, storage included. -/
theorem export_deterministic (toLocaleDateString : Int → String) (dom : Dom)
    (title content : String) :
    (∀ (now1 now2 : Int) (s1 s2 : Session),
      (exportAsHTML toLocaleDateString now1 title content s1).1.filename
        = (exportAsHTML toLocaleDateString now2 title content s2).1.filename ∧
      (exportAsHTML toLocaleDateString now1 title content s1).1.filename = title ++ ".html" ∧
      (exportAsTXT toLocaleDateString now1 title content s1).1.filename
        = (exportAsTXT toLocaleDateString now2 title content s2).1.filename ∧
      (exportAsTXT toLocaleDateString now1 title content s1).1.filename = title ++ ".txt" ∧
      (exportAsDOCX dom title content s1).1.filename = title ++ ".docx") ∧
    (∀ (now1 now2 : Int) (s1 s2 : Session),
      toLocaleDateString now1 = toLocaleDateString now2 →
      (exportAsHTML toLocaleDateString now1 title content s1).1
        = (exportAsHTML toLocaleDateString now2 title content s2).1 ∧
      (exportAsTXT toLocaleDateString now1 title content s1).1
        = (exportAsTXT toLocaleDateString now2 title content s2).1) ∧
    (∀ (now1 now2 : Int) (s1 s2 : Session),
      (exportAsHTML toLocaleDateString now1 title content s1).1.content
          = (exportAsHTML toLocaleDateString now2 title content s2).1.content ∨
        (exportAsTXT toLocaleDateString now1 title content s1).1.content
          = (exportAsTXT toLocaleDateString now2 title content s2).1.content →
      toLocaleDateString now1 = toLocaleDateString now2) ∧
    (∀ s1 s2 : Session,
      (exportAsDOCX dom title content s1).1 = (exportAsDOCX dom title content s2).1) ∧
    (∀ (now : Int) (s : Session),
      (exportAsHTML toLocaleDateString now title content s).2 = s ∧
      (exportAsTXT toLocaleDateString now title content s).2 = s ∧
      (exportAsDOCX dom title content s).2 = s) := by
  refine ⟨?_, ?_, ?_, ?_, ?_⟩
  · intro now1 now2 s1 s2
    exact ⟨rfl, rfl, rfl, rfl, rfl⟩
  · intro now1 now2 s1 s2 h
    simp only [exportAsHTML, exportAsTXT, h, and_self]
  · intro now1 now2 s1 s2 h
    rcases h with h | h
    · exact exportAsHTML_content_date toLocaleDateString now1 now2 title content s1 s2 h
    · exact exportAsTXT_content_date toLocaleDateString now1 now2 title content s1 s2 h
  · intro s1 s2
    rfl
  · intro now s
    exact ⟨rfl, rfl, rfl⟩

/-- Witness of C17, amended: two exports of the same title and content within
the same day, from two different sessions. -/
theorem export_deterministic_witness :
    (exportAsHTML dayNumber 0 "T" "c" (mkSession none "" "")).1
        = (exportAsHTML dayNumber 1000 "T" "c" (mkSession (some (mkNote "41" "A")) "T" "c")).1 ∧
      (exportAsTXT dayNumber 0 "T" "c" (mkSession none "" "")).1
        = (exportAsTXT dayNumber 1000 "T" "c" (mkSession (some (mkNote "41" "A")) "T" "c")).1 :=
  (export_deterministic dayNumber tagStripDom "T" "c").2.1 0 1000
    (mkSession none "" "") (mkSession (some (mkNote "41" "A")) "T" "c") (by decide)

/-! ## Creating a note -/

/-- Counterexample to C18 as stated.  With live note 41 in the list,
`createNew()` at clock value 41 gives a live note whose id is again 41, the id
of the previous live note and of an entry of the list.  And with the saving
flag set, `createNew()` clears the editor without saving: the list holds no
record titled `Draft` afterwards. -/
theorem createNewNote_counterexample :
    ((createNewNote tagStripDom 5 7 41 41 41 (mkSessionOn
        (mkStorage (Stored.value (mkNote "41" "A")) [mkNote "2" "B", mkNote "41" "A"])
        (some (mkNote "41" "A")) "Draft" "x")).session.currentNote.map Note.id
          = some (mkNote "41" "A").id ∧
      (∃ l1, parseNotes (createNewNote tagStripDom 5 7 41 41 41 (mkSessionOn
        (mkStorage (Stored.value (mkNote "41" "A")) [mkNote "2" "B", mkNote "41" "A"])
        (some (mkNote "41" "A")) "Draft" "x")).session.storage = some l1 ∧
        "41" ∈ l1.map Note.id)) ∧
    (∃ l1, parseNotes (createNewNote tagStripDom 5 7 9 9 9
        { mkSessionOn
            (mkStorage (Stored.value (mkNote "41" "A")) [mkNote "2" "B", mkNote "41" "A"])
            (some (mkNote "41" "A")) "Draft" "x" with isSaving := true }).session.storage
          = some l1 ∧
      (∀ r ∈ l1, r.title ≠ "Draft") ∧
      (createNewNote tagStripDom 5 7 9 9 9
        { mkSessionOn
            (mkStorage (Stored.value (mkNote "41" "A")) [mkNote "2" "B", mkNote "41" "A"])
            (some (mkNote "41" "A")) "Draft" "x" with isSaving := true }).session.editorHTML
          = "") := by
  refine ⟨⟨by decide, _, rfl, by decide⟩, ⟨_, rfl, by decide, by decide⟩⟩

/-- C18, amended: when no save is in flight, the store is writable and the live
note's id is not the empty string, after `createNew()` the live note is a
default note (title `Untitled Document`, empty content, zero counts) whose id
is the decimal rendering of the clock; the session is not dirty; the list holds
under the previous live note's id a record with the title input trimmed (or
`Untitled Document` when that is empty) and the editor content; and the new id
differs from the previous live note's id and from every id in the list
whenever the rendering of the clock is not among them. -/
theorem createNewNote_spec (dom : Dom) (now idNow t1 t2 t3 : Int) (s : Session)
    (live : Note) (notes : List Note)
    (hcur : s.currentNote = some live) (hid : live.id ≠ "")
    (hsav : s.isSaving = false) (hw : s.storage.writable = true)
    (hq : parseNotes s.storage = some notes) :
    ∃ s1 d l1 r, createNewNote dom now idNow t1 t2 t3 s = Outcome.returned s1 ∧
      s1.currentNote = some d ∧
      d.id = toString t1 ∧ d.title = "Untitled Document" ∧ d.content = "" ∧
      d.wordCount = 0 ∧ d.charCount = 0 ∧
      s1.documentTitle = "Untitled Document" ∧ s1.editorHTML = "" ∧
      hasUnsavedChanges s1 = false ∧
      parseNotes s1.storage = some l1 ∧
      findNote l1 live.id = some r ∧ r.id = live.id ∧
      r.title = strOr (jsTrim s.documentTitle) "Untitled Document" ∧
      r.content = s.editorHTML ∧
      (toString t1 ≠ live.id → (∀ n ∈ notes, n.id ≠ toString t1) →
        d.id ≠ live.id ∧ ∀ n ∈ l1, n.id ≠ d.id) := by
  have hbid := buildNote_id_of_live dom now idNow s live hcur hid
  have hrun : createNewNote dom now idNow t1 t2 t3 s = Outcome.returned
      { s with
        isSaving := false
        documentTitle := dom.inputValue "Untitled Document"
        editorHTML := dom.innerHTML ""
        currentNote := some (newNote t1 t2 t3)
        storage :=
          { current := Stored.value (buildNote dom now idNow s)
            notes := Stored.value ((buildNote dom now idNow s ::
              notes.filter (fun n => n.id != (buildNote dom now idNow s).id)).take 100)
            writable := true } } := by
    simp only [createNewNote, saveCurrentNote_ok dom now idNow s notes hsav hw hq]
    rfl
  have hclean : strOr (jsTrim "Untitled Document") "Untitled Document"
      = "Untitled Document" := by decide
  have hval : dom.inputValue "Untitled Document" = "Untitled Document" :=
    dom.inputValue_of_no_line_break "Untitled Document" (by decide)
  refine ⟨_, newNote t1 t2 t3, _, buildNote dom now idNow s, hrun, rfl, rfl, rfl, rfl, rfl,
    rfl, hval, dom.innerHTML_empty,
    (hasUnsavedChanges_loaded _ (newNote t1 t2 t3) rfl hval dom.innerHTML_empty).mpr hclean,
    rfl, ?_, hbid, rfl, rfl, ?_⟩
  · rw [List.take_succ_cons, ← hbid]
    exact findNote_cons_self _ _
  · intro hne hall
    refine ⟨hne, ?_⟩
    intro n hn
    have hn1 := List.mem_of_mem_take hn
    rcases List.mem_cons.mp hn1 with h | h
    · rw [h, hbid]
      exact fun e => hne e.symm
    · exact hall n (List.mem_filter.mp h).1

/-- Witness of C18, amended: `createNew()` at clock value 9 from live note 41
with title input `Draft`. -/
theorem createNewNote_spec_witness :
    ∃ s1 d l1 r, createNewNote tagStripDom 5 7 9 9 9 (mkSessionOn
        (mkStorage (Stored.value (mkNote "41" "A")) [mkNote "2" "B", mkNote "41" "A"])
        (some (mkNote "41" "A")) "Draft" "x") = Outcome.returned s1 ∧
      s1.currentNote = some d ∧
      d.id = toString (9 : Int) ∧ d.title = "Untitled Document" ∧ d.content = "" ∧
      d.wordCount = 0 ∧ d.charCount = 0 ∧
      s1.documentTitle = "Untitled Document" ∧ s1.editorHTML = "" ∧
      hasUnsavedChanges s1 = false ∧
      parseNotes s1.storage = some l1 ∧
      findNote l1 (mkNote "41" "A").id = some r ∧ r.id = (mkNote "41" "A").id ∧
      r.title = strOr (jsTrim "Draft") "Untitled Document" ∧
      r.content = "x" ∧
      (toString (9 : Int) ≠ (mkNote "41" "A").id →
        (∀ n ∈ [mkNote "2" "B", mkNote "41" "A"], n.id ≠ toString (9 : Int)) →
        d.id ≠ (mkNote "41" "A").id ∧ ∀ n ∈ l1, n.id ≠ d.id) :=
  createNewNote_spec tagStripDom 5 7 9 9 9 (mkSessionOn
      (mkStorage (Stored.value (mkNote "41" "A")) [mkNote "2" "B", mkNote "41" "A"])
      (some (mkNote "41" "A")) "Draft" "x")
    (mkNote "41" "A") [mkNote "2" "B", mkNote "41" "A"] (by rfl) (by decide) rfl rfl rfl

end NotepadZilla
